import Mathlib

/-!
Verification of the Ogame-like game server (shallow embedding).

This file embeds the parts of the code base needed to settle the frozen
claims: the resource production system (online tick in
src/systems/resource_production.py and the startup offline accrual in
src/core/game.py), the fleet dispatch and recall handlers, the ship build
handler, the battle resolution system and the marketplace handlers.

Python floats are modelled as exact rationals; Python ints as integers.
Wall-clock datetimes are modelled as integer seconds since an arbitrary
epoch.  int(x) on a non-negative value is floor; round(x) is Python 3
half-to-even rounding, modelled by rhe below.
-/

namespace Ogame

/-- Floor of a rational, computed through Rat.floor so that the kernel can
evaluate it on concrete inputs. -/
def floorQ (q : ℚ) : ℤ := Rat.floor q

/-- Python int() truncation toward zero on a rational. -/
def truncQ (q : ℚ) : ℤ := if q < 0 then -(floorQ (-q)) else floorQ q

/-- Python 3 round(): round half to even. -/
def rhe (q : ℚ) : ℤ :=
  let f := floorQ q
  let r := q - (f : ℚ)
  if r < 1/2 then f
  else if 1/2 < r then f + 1
  else if f % 2 = 0 then f else f + 1

/-- Resource amounts held by a player or planet (src/models/components.py `Resources`). -/
structure Resources where
  metal : ℤ
  crystal : ℤ
  deuterium : ℤ
deriving DecidableEq, Repr

/-- Building levels read by the production and ship-build code.  The Python
dataclass declares the first six; the remaining levels are dynamic attributes
read through getattr with default 0, so a field value of 0 models their
absence. -/
structure Buildings where
  metal_mine : ℤ
  crystal_mine : ℤ
  deuterium_synthesizer : ℤ
  solar_plant : ℤ
  robot_factory : ℤ
  shipyard : ℤ
  fusion_reactor : ℤ
  metal_storage : ℤ
  crystal_storage : ℤ
  deuterium_tank : ℤ
deriving DecidableEq, Repr

/-- Research levels (src/models/components.py `Research`). -/
structure Research where
  energy : ℤ
  laser : ℤ
  ion : ℤ
  hyperspace : ℤ
  plasma : ℤ
  computer : ℤ
deriving DecidableEq, Repr

/-- Per-hour production rates of the `ResourceProduction` component. -/
structure ResourceProduction where
  metal_rate : ℚ
  crystal_rate : ℚ
  deuterium_rate : ℚ
deriving DecidableEq, Repr

/-- Planet metadata used by planet modifiers. -/
structure Planet where
  temperature : ℤ
  size : ℤ
deriving DecidableEq, Repr

/-! Configuration constants from src/core/config.py at their default values. -/

def ENERGY_SOLAR_BASE : ℚ := 20
def ENERGY_SOLAR_GROWTH : ℚ := 1
def FUSION_ENERGY_BASE : ℚ := 30
def FUSION_ENERGY_GROWTH : ℚ := 1
def FUSION_DEUTERIUM_CONSUMPTION_PER_LEVEL : ℚ := 5
def ENERGY_CONSUMPTION_METAL_MINE : ℚ := 3
def ENERGY_CONSUMPTION_CRYSTAL_MINE : ℚ := 2
def ENERGY_CONSUMPTION_DEUTERIUM_SYNTHESIZER : ℚ := 2
def ENERGY_CONSUMPTION_GROWTH : ℚ := 1
def ENERGY_DEFICIT_SOFT_FLOOR : ℚ := 1/4
def ENERGY_TECH_ENERGY_BONUS_PER_LEVEL : ℚ := 1/50
def PLASMA_BONUS_METAL : ℚ := 1/100
def PLASMA_BONUS_CRYSTAL : ℚ := 3/500
def PLASMA_BONUS_DEUTERIUM : ℚ := 1/50
def STORAGE_BASE_CAPACITY_METAL : ℚ := 100000
def STORAGE_BASE_CAPACITY_CRYSTAL : ℚ := 75000
def STORAGE_BASE_CAPACITY_DEUTERIUM : ℚ := 50000
def STORAGE_CAPACITY_GROWTH_METAL : ℚ := 2
def STORAGE_CAPACITY_GROWTH_CRYSTAL : ℚ := 2
def STORAGE_CAPACITY_GROWTH_DEUTERIUM : ℚ := 2

/-- config.temperature_multiplier: deuterium efficiency by planet temperature. -/
def temperature_multiplier (t : ℤ) : ℚ :=
  if t ≤ -40 then 6/5
  else if t ≤ 0 then 11/10
  else if t ≤ 25 then 1
  else if t ≤ 50 then 9/10
  else 4/5

/-- config.size_multiplier: production/capacity multiplier by planet size. -/
def size_multiplier (s : ℤ) : ℚ :=
  if s ≤ 150 then 9/10
  else if s ≤ 175 then 1
  else 11/10

/-- Per-building energy consumption with optional non-linear growth
(the local _consumption helper in both production code paths). -/
def consumptionOf (base : ℚ) (lvl : ℤ) : ℚ :=
  let l := max 0 lvl
  base * (l : ℚ) * ENERGY_CONSUMPTION_GROWTH ^ (max 0 (l - 1)).toNat

/-- One production entity: the components the production loop matches plus
the optional Research and Planet components fetched inside the loop. -/
structure PEntity where
  res : Resources
  prod : ResourceProduction
  b : Buildings
  research : Option Research
  planet : Option Planet
deriving DecidableEq, Repr

def plasmaLvl (pe : PEntity) : ℤ :=
  match pe.research with | none => 0 | some r => r.plasma

def energyLvl (pe : PEntity) : ℤ :=
  match pe.research with | none => 0 | some r => r.energy

/-- Solar plant energy production rate. -/
def solarRate (b : Buildings) : ℚ :=
  let sp := max 0 b.solar_plant
  ENERGY_SOLAR_BASE * (sp : ℚ) * ENERGY_SOLAR_GROWTH ^ (max 0 (sp - 1)).toNat

/-- Fusion reactor energy production rate (used by the online tick only). -/
def fusionRate (b : Buildings) : ℚ :=
  let fr := max 0 b.fusion_reactor
  FUSION_ENERGY_BASE * (fr : ℚ) * FUSION_ENERGY_GROWTH ^ (max 0 (fr - 1)).toNat

/-- Total energy required by the three consumer buildings. -/
def energyRequired (b : Buildings) : ℚ :=
  consumptionOf ENERGY_CONSUMPTION_METAL_MINE b.metal_mine
    + consumptionOf ENERGY_CONSUMPTION_CRYSTAL_MINE b.crystal_mine
    + consumptionOf ENERGY_CONSUMPTION_DEUTERIUM_SYNTHESIZER b.deuterium_synthesizer

/-- Energy factor applied to production, with the deficit soft floor. -/
def energyFactor (produced required : ℚ) : ℚ :=
  if required ≤ 0 then 1
  else if produced ≤ 0 then 0
  else max ENERGY_DEFICIT_SOFT_FLOOR (min 1 (produced / required))

/-- Temperature multiplier for the entity (neutral 1 when no Planet component). -/
def tempMult (pe : PEntity) : ℚ :=
  match pe.planet with | none => 1 | some p => temperature_multiplier p.temperature

/-- Size multiplier for the entity (neutral 1 when no Planet component). -/
def sizeMult (pe : PEntity) : ℚ :=
  match pe.planet with | none => 1 | some p => size_multiplier p.size

/-- Energy produced by the online tick: solar plus fusion, scaled by the
energy-tech bonus. -/
def onlineEnergyProduced (pe : PEntity) : ℚ :=
  (solarRate pe.b + fusionRate pe.b) * (1 + ENERGY_TECH_ENERGY_BONUS_PER_LEVEL * (energyLvl pe : ℚ))

/-- Energy produced in the offline accrual pass: solar only. -/
def offlineEnergyProduced (pe : PEntity) : ℚ :=
  solarRate pe.b * (1 + ENERGY_TECH_ENERGY_BONUS_PER_LEVEL * (energyLvl pe : ℚ))

/-- Raw (pre-round) metal production over h hours given an energy factor.
USE_CONFIG_PRODUCTION_RATES defaults to false, so base rates come from the
ResourceProduction component. -/
def metalProductionQ (pe : PEntity) (h factor : ℚ) : ℚ :=
  let base := pe.prod.metal_rate * (11/10 : ℚ) ^ (max 0 pe.b.metal_mine).toNat * h * factor * sizeMult pe
  if 0 < plasmaLvl pe then base * (1 + PLASMA_BONUS_METAL * (plasmaLvl pe : ℚ)) else base

def crystalProductionQ (pe : PEntity) (h factor : ℚ) : ℚ :=
  let base := pe.prod.crystal_rate * (11/10 : ℚ) ^ (max 0 pe.b.crystal_mine).toNat * h * factor * sizeMult pe
  if 0 < plasmaLvl pe then base * (1 + PLASMA_BONUS_CRYSTAL * (plasmaLvl pe : ℚ)) else base

def deuteriumProductionQ (pe : PEntity) (h factor : ℚ) : ℚ :=
  let base := pe.prod.deuterium_rate * (11/10 : ℚ) ^ (max 0 pe.b.deuterium_synthesizer).toNat * h * factor * sizeMult pe * tempMult pe
  if 0 < plasmaLvl pe then base * (1 + PLASMA_BONUS_DEUTERIUM * (plasmaLvl pe : ℚ)) else base

/-- Online storage capacities: base times growth^level, scaled by planet size. -/
def capMetalOnline (pe : PEntity) : ℤ :=
  truncQ (STORAGE_BASE_CAPACITY_METAL * STORAGE_CAPACITY_GROWTH_METAL ^ (max 0 pe.b.metal_storage).toNat * sizeMult pe)

def capCrystalOnline (pe : PEntity) : ℤ :=
  truncQ (STORAGE_BASE_CAPACITY_CRYSTAL * STORAGE_CAPACITY_GROWTH_CRYSTAL ^ (max 0 pe.b.crystal_storage).toNat * sizeMult pe)

def capDeuteriumOnline (pe : PEntity) : ℤ :=
  truncQ (STORAGE_BASE_CAPACITY_DEUTERIUM * STORAGE_CAPACITY_GROWTH_DEUTERIUM ^ (max 0 pe.b.deuterium_tank).toNat * sizeMult pe)

/-- Offline storage capacities: the startup accrual does not apply the planet
size multiplier. -/
def capMetalOffline (pe : PEntity) : ℤ :=
  truncQ (STORAGE_BASE_CAPACITY_METAL * STORAGE_CAPACITY_GROWTH_METAL ^ (max 0 pe.b.metal_storage).toNat)

def capCrystalOffline (pe : PEntity) : ℤ :=
  truncQ (STORAGE_BASE_CAPACITY_CRYSTAL * STORAGE_CAPACITY_GROWTH_CRYSTAL ^ (max 0 pe.b.crystal_storage).toNat)

def capDeuteriumOffline (pe : PEntity) : ℤ :=
  truncQ (STORAGE_BASE_CAPACITY_DEUTERIUM * STORAGE_CAPACITY_GROWTH_DEUTERIUM ^ (max 0 pe.b.deuterium_tank).toNat)

/-- Clamped delta actually added to a resource: non-negative, and never past
the remaining room below capacity. -/
def clampAdd (raw cap before : ℤ) : ℤ :=
  max 0 (min raw (max 0 (cap - before)))

/-- Fusion reactor deuterium consumption over h hours (online tick only). -/
def fusionDeutConsumption (pe : PEntity) (h : ℚ) : ℤ :=
  rhe (FUSION_DEUTERIUM_CONSUMPTION_PER_LEVEL * ((max 0 pe.b.fusion_reactor : ℤ) : ℚ) * h)

/-- Energy factor of the online tick. -/
def onlineFactor (pe : PEntity) : ℚ :=
  energyFactor (onlineEnergyProduced pe) (energyRequired pe.b)

/-- Energy factor of the offline accrual pass. -/
def offlineFactor (pe : PEntity) : ℚ :=
  energyFactor (offlineEnergyProduced pe) (energyRequired pe.b)

/-- int(round(metal_production)) of the online tick. -/
def rawMetalOnline (pe : PEntity) (h : ℚ) : ℤ := rhe (metalProductionQ pe h (onlineFactor pe))

def rawCrystalOnline (pe : PEntity) (h : ℚ) : ℤ := rhe (crystalProductionQ pe h (onlineFactor pe))

def rawDeuteriumOnline (pe : PEntity) (h : ℚ) : ℤ := rhe (deuteriumProductionQ pe h (onlineFactor pe))

/-- Clamped online deltas. -/
def addMetalOnline (pe : PEntity) (h : ℚ) : ℤ :=
  clampAdd (rawMetalOnline pe h) (capMetalOnline pe) pe.res.metal

def addCrystalOnline (pe : PEntity) (h : ℚ) : ℤ :=
  clampAdd (rawCrystalOnline pe h) (capCrystalOnline pe) pe.res.crystal

def addDeuteriumOnline (pe : PEntity) (h : ℚ) : ℤ :=
  clampAdd (rawDeuteriumOnline pe h) (capDeuteriumOnline pe) pe.res.deuterium

/-- One run of ResourceProductionSystem.process for a single entity over an
elapsed time of h hours (src/systems/resource_production.py lines 32-251).
Returns the updated Resources. -/
def onlineProduction (pe : PEntity) (h : ℚ) : Resources :=
  if h ≤ 0 then pe.res else
  let consD := fusionDeutConsumption pe h
  let d1 := pe.res.deuterium + addDeuteriumOnline pe h
  { metal := pe.res.metal + addMetalOnline pe h
    crystal := pe.res.crystal + addCrystalOnline pe h
    deuterium := if 0 < consD then max 0 (d1 - consD) else d1 }

def rawMetalOffline (pe : PEntity) (h : ℚ) : ℤ := rhe (metalProductionQ pe h (offlineFactor pe))

def rawCrystalOffline (pe : PEntity) (h : ℚ) : ℤ := rhe (crystalProductionQ pe h (offlineFactor pe))

def rawDeuteriumOffline (pe : PEntity) (h : ℚ) : ℤ := rhe (deuteriumProductionQ pe h (offlineFactor pe))

def addMetalOffline (pe : PEntity) (h : ℚ) : ℤ :=
  clampAdd (rawMetalOffline pe h) (capMetalOffline pe) pe.res.metal

def addCrystalOffline (pe : PEntity) (h : ℚ) : ℤ :=
  clampAdd (rawCrystalOffline pe h) (capCrystalOffline pe) pe.res.crystal

def addDeuteriumOffline (pe : PEntity) (h : ℚ) : ℤ :=
  clampAdd (rawDeuteriumOffline pe h) (capDeuteriumOffline pe) pe.res.deuterium

/-- One pass of GameWorld._apply_offline_resource_accrual for a single entity
over an elapsed time of h hours (src/core/game.py lines 1565-1693).
Differences from the online tick are in the energy production (solar only),
the capacities (no size scaling) and the absence of fusion deuterium
consumption. -/
def offlineAccrual (pe : PEntity) (h : ℚ) : Resources :=
  if h ≤ 0 then pe.res else
  { metal := pe.res.metal + addMetalOffline pe h
    crystal := pe.res.crystal + addCrystalOffline pe h
    deuterium := pe.res.deuterium + addDeuteriumOffline pe h }

/-- Entity exhibiting the offline/online divergence: an idle planet with only
a level-1 fusion reactor. -/
def fusionEntity : PEntity :=
  { res := { metal := 500, crystal := 300, deuterium := 100 }
    prod := { metal_rate := 30, crystal_rate := 20, deuterium_rate := 10 }
    b := { metal_mine := 0, crystal_mine := 0, deuterium_synthesizer := 0,
           solar_plant := 0, robot_factory := 0, shipyard := 0,
           fusion_reactor := 1, metal_storage := 0, crystal_storage := 0,
           deuterium_tank := 0 }
    research := none
    planet := none }

/-! Ship data from src/core/config.py: BASE_SHIP_STATS, BASE_SHIP_COSTS,
BASE_SHIP_TIMES.  colony_ship appears in the cost and time tables but not in
BASE_SHIP_STATS. -/

inductive ShipType where
  | light_fighter
  | heavy_fighter
  | cruiser
  | battleship
  | bomber
  | colony_ship
deriving DecidableEq, Repr

/-- BASE_SHIP_STATS speed; none models absence from the stats table. -/
def baseSpeedStat : ShipType → Option ℤ
  | .light_fighter => some 12500
  | .heavy_fighter => some 10000
  | .cruiser => some 15000
  | .battleship => some 10000
  | .bomber => some 5000
  | .colony_ship => none

/-- BASE_SHIP_STATS attack with the .get default 0 used by
BattleSystem._compute_total_attack. -/
def attackStat : ShipType → ℤ
  | .light_fighter => 50
  | .heavy_fighter => 150
  | .cruiser => 400
  | .battleship => 1000
  | .bomber => 500
  | .colony_ship => 0

/-- BASE_SHIP_STATS attack with the .get default 1 used by
BattleSystem._compute_power. -/
def powerStat : ShipType → ℤ
  | .colony_ship => 1
  | st => attackStat st

/-- BASE_SHIP_STATS shield with the .get default 0. -/
def shieldStat : ShipType → ℤ
  | .light_fighter => 10
  | .heavy_fighter => 25
  | .cruiser => 50
  | .battleship => 200
  | .bomber => 500
  | .colony_ship => 0

/-- BASE_SHIP_COSTS (metal, crystal, deuterium) per unit. -/
def shipCost : ShipType → ℤ × ℤ × ℤ
  | .light_fighter => (300, 150, 0)
  | .heavy_fighter => (600, 400, 0)
  | .cruiser => (2000, 1500, 200)
  | .battleship => (6000, 4000, 0)
  | .bomber => (5000, 3000, 1000)
  | .colony_ship => (450, 225, 0)

/-- BASE_SHIP_TIMES seconds per unit. -/
def shipTime : ShipType → ℤ
  | .light_fighter => 60
  | .heavy_fighter => 120
  | .cruiser => 300
  | .battleship => 600
  | .bomber => 900
  | .colony_ship => 1

/-- BattleSystem._structure_points: (metal cost + crystal cost) / 10. -/
def structPoints (st : ShipType) : ℚ :=
  ((shipCost st).1 + (shipCost st).2.1 : ℤ) / 10

/-- Counts of each owned ship type (src/models/components.py `Fleet`). -/
structure Fleet where
  light_fighter : ℤ
  heavy_fighter : ℤ
  cruiser : ℤ
  battleship : ℤ
  bomber : ℤ
  colony_ship : ℤ
deriving DecidableEq, Repr

def fleetCount (f : Fleet) : ShipType → ℤ
  | .light_fighter => f.light_fighter
  | .heavy_fighter => f.heavy_fighter
  | .cruiser => f.cruiser
  | .battleship => f.battleship
  | .bomber => f.bomber
  | .colony_ship => f.colony_ship

/-- Total ships stationed: fields(Fleet) summation in _handle_build_ships. -/
def fleetTotal (f : Fleet) : ℤ :=
  f.light_fighter + f.heavy_fighter + f.cruiser + f.battleship + f.bomber + f.colony_ship

/-- Galaxy coordinates (src/models/components.py `Position`). -/
structure Position where
  galaxy : ℤ
  system : ℤ
  planet : ℤ
deriving DecidableEq, Repr

/-- A fleet in transit (src/models/components.py `FleetMovement`).
Datetimes are integer seconds. -/
structure FleetMovement where
  origin : Position
  target : Position
  departure_time : ℤ
  arrival_time : ℤ
  speed : ℚ
  mission : String
  owner_id : ℤ
  recalled : Bool
deriving DecidableEq, Repr

/-! Fleet dispatch (GameWorld._handle_fleet_dispatch, src/core/game.py
lines 884-1003). -/

def SYSTEMS_PER_GALAXY : ℤ := 499
def POSITIONS_PER_SYSTEM : ℤ := 15

/-- Linearized distance between coordinates. -/
def distanceUnits (o t : Position) : ℤ :=
  |t.galaxy - o.galaxy| * SYSTEMS_PER_GALAXY * POSITIONS_PER_SYSTEM
    + |t.system - o.system| * POSITIONS_PER_SYSTEM
    + |t.planet - o.planet|

/-- _calculate_ship_stats speed bonus from hyperspace research
(+2 percent per level). -/
def speedBonus (research : Option Research) : ℚ :=
  1 + (1/50) * ((match research with | none => 0 | some r => r.hyperspace : ℤ) : ℚ)

/-- Research-modified speed of one ship type; 0 when the type has no entry in
BASE_SHIP_STATS (the _get_speed_for exception path). -/
def shipSpeed (research : Option Research) (st : ShipType) : ℤ :=
  match baseSpeedStat st with
  | none => 0
  | some s => truncQ ((s : ℚ) * speedBonus research)

/-- Speeds collected from a provided composition: positive counts with a
positive known speed. -/
def compSpeeds (research : Option Research) (comp : List (ShipType × ℤ)) : List ℤ :=
  comp.filterMap fun p =>
    if p.2 ≤ 0 then none
    else if 0 < shipSpeed research p.1 then some (shipSpeed research p.1) else none

/-- ship_stats key order of BASE_SHIP_STATS (Python dict insertion order). -/
def statKeys : List ShipType :=
  [.light_fighter, .heavy_fighter, .cruiser, .battleship, .bomber]

/-- Positive speeds of ship types the entity owns, scanned in stats order. -/
def ownedSpeeds (research : Option Research) (f : Fleet) : List ℤ :=
  statKeys.filterMap fun st =>
    if 0 < fleetCount f st then
      if 0 < shipSpeed research st then some (shipSpeed research st) else none
    else none

/-- Effective base fleet speed: slowest ship of the composition, else fastest
owned ship, else the light-fighter stat (or 5000 when that is zero). -/
def baseEffectiveSpeed (research : Option Research) (f : Fleet)
    (comp : List (ShipType × ℤ)) : ℤ :=
  let s1 := match compSpeeds research comp with
    | [] => 0
    | h :: t => t.foldl min h
  if 0 < s1 then s1 else
  let s2 := match ownedSpeeds research f with
    | [] => 0
    | h :: t => t.foldl max h
  if 0 < s2 then s2 else
  let s3 := shipSpeed research .light_fighter
  if s3 = 0 then 5000 else s3

/-- Optional user speed factor: values outside (0, 1] are replaced by 1. -/
def userFactor (speed : Option ℚ) : ℚ :=
  match speed with
  | none => 1
  | some q => if q ≤ 0 then 1 else if 1 < q then 1 else q

/-- effective_speed = max(1.0, effective_speed * user_factor). -/
def effectiveSpeedQ (research : Option Research) (f : Fleet)
    (comp : List (ShipType × ℤ)) (speedParam : Option ℚ) : ℚ :=
  max 1 ((baseEffectiveSpeed research f comp : ℚ) * userFactor speedParam)

/-- duration_seconds = int((distance / speed) * 3600), floored at 1. -/
def travelDuration (research : Option Research) (f : Fleet)
    (comp : List (ShipType × ℤ)) (speedParam : Option ℚ) (o t : Position) : ℤ :=
  let d := truncQ (((distanceUnits o t : ℤ) : ℚ) / effectiveSpeedQ research f comp speedParam * 3600)
  if d < 1 then 1 else d

/-- GameWorld._handle_fleet_dispatch for the matched player entity: validates
coordinates, then attaches a FleetMovement.  none models the silent no-op. -/
def handleFleetDispatch (pos : Position) (research : Option Research) (f : Fleet)
    (g s p : ℤ) (mission : String) (speedParam : Option ℚ)
    (comp : List (ShipType × ℤ)) (now owner : ℤ) : Option FleetMovement :=
  if g ≤ 0 ∨ s ≤ 0 ∨ p ≤ 0 then none else
  some
    { origin := pos
      target := { galaxy := g, system := s, planet := p }
      departure_time := now
      arrival_time := now + travelDuration research f comp speedParam pos
        { galaxy := g, system := s, planet := p }
      speed := effectiveSpeedQ research f comp speedParam
      mission := if mission = "" then "transfer" else mission
      owner_id := owner
      recalled := false }

/-- GameWorld._handle_fleet_recall for the matched movement: returns the
reported success flag and the (possibly updated) movement. -/
def recallFleet (mv : FleetMovement) (now : ℤ) : Bool × FleetMovement :=
  if mv.arrival_time ≤ now then (false, mv)
  else if mv.recalled then (true, mv)
  else
    let seconds := max 1 (now - mv.departure_time)
    (true, { mv with
      target := mv.origin
      recalled := true
      departure_time := now
      arrival_time := now + seconds })

/-! Ship building (GameWorld._handle_build_ships, src/core/game.py
lines 612-817). -/

def BASE_MAX_FLEET_SIZE : ℤ := 50
def FLEET_SIZE_PER_COMPUTER_LEVEL : ℤ := 10
def SHIPYARD_QUEUE_BASE_LIMIT : ℤ := 2
def SHIPYARD_QUEUE_PER_LEVEL : ℤ := 1
def BUILD_TIME_REDUCTION_PER_HYPERSPACE_LEVEL : ℚ := 1/50
def SHIPYARD_BUILD_TIME_REDUCTION_PER_LEVEL : ℚ := 1/20
def ROBOT_FACTORY_BUILD_TIME_REDUCTION_PER_LEVEL : ℚ := 1/50
def MIN_BUILD_TIME_FACTOR : ℚ := 1/2

/-- One pending entry of the ShipBuildQueue component. -/
structure SBItem where
  stype : ShipType
  count : ℤ
  completion_time : ℤ
  costM : ℤ
  costC : ℤ
  costD : ℤ
  expected_duration_s : ℤ
deriving DecidableEq, Repr

/-- Ships already queued, all types (the fleet-cap scan over sbq.items). -/
def queuedTotal (q : List SBItem) : ℤ := (q.map SBItem.count).sum

/-- hasattr(fleet, ship_type) for the command string. -/
def parseShipType (s : String) : Option ShipType :=
  if s = "light_fighter" then some .light_fighter
  else if s = "heavy_fighter" then some .heavy_fighter
  else if s = "cruiser" then some .cruiser
  else if s = "battleship" then some .battleship
  else if s = "bomber" then some .bomber
  else if s = "colony_ship" then some .colony_ship
  else none

/-- Fleet size bound from Computer Technology. -/
def maxFleetAllowed (research : Option Research) : ℤ :=
  BASE_MAX_FLEET_SIZE
    + FLEET_SIZE_PER_COMPUTER_LEVEL * max 0 (match research with | none => 0 | some r => r.computer)

/-- Ship build duration: per-unit time times quantity, then hyperspace,
shipyard and robot-factory reductions, floored at MIN_BUILD_TIME_FACTOR and
at one second. -/
def shipBuildDuration (st : ShipType) (qty shipyardLvl robotLvl : ℤ)
    (research : Option Research) : ℤ :=
  let base : ℤ := shipTime st * qty
  let hyper : ℤ := match research with | none => 0 | some r => r.hyperspace
  let hyperFactor := max 0 (1 - BUILD_TIME_REDUCTION_PER_HYPERSPACE_LEVEL * (hyper : ℚ))
  let shipyardFactor := max 0 (1 - SHIPYARD_BUILD_TIME_REDUCTION_PER_LEVEL * ((max 0 shipyardLvl : ℤ) : ℚ))
  let robotFactor := max 0 (1 - ROBOT_FACTORY_BUILD_TIME_REDUCTION_PER_LEVEL * ((max 0 robotLvl : ℤ) : ℚ))
  let finalFactor := max MIN_BUILD_TIME_FACTOR (hyperFactor * shipyardFactor * robotFactor)
  truncQ (max 1 ((base : ℤ) * finalFactor))

/-- State of the matched player entity for a build_ships command. -/
structure BuildState where
  res : Resources
  b : Buildings
  fleet : Fleet
  queue : List SBItem
  research : Option Research
deriving DecidableEq, Repr

/-- GameWorld._handle_build_ships for the matched player entity.  Validation
failures return the state unchanged, except that the shipyard queue limit is
only checked after resources have been deducted. -/
def handleBuildShips (s : BuildState) (ship_type : String) (quantity now : ℤ) :
    BuildState :=
  if ship_type = "" then s else
  let qty := max 1 quantity
  match parseShipType ship_type with
  | none => s
  | some st =>
    if s.b.shipyard ≤ 0 then s else
    let total := fleetTotal s.fleet + queuedTotal s.queue
    if maxFleetAllowed s.research < total + qty then s else
    let cm := (shipCost st).1 * qty
    let cc := (shipCost st).2.1 * qty
    let cd := (shipCost st).2.2 * qty
    let dur := shipBuildDuration st qty s.b.shipyard s.b.robot_factory s.research
    if cm ≤ s.res.metal ∧ cc ≤ s.res.crystal ∧ cd ≤ s.res.deuterium then
      let res2 : Resources :=
        { metal := s.res.metal - cm, crystal := s.res.crystal - cc, deuterium := s.res.deuterium - cd }
      let limit := SHIPYARD_QUEUE_BASE_LIMIT + SHIPYARD_QUEUE_PER_LEVEL * max 0 s.b.shipyard
      if limit ≤ (s.queue.length : ℤ) then { s with res := res2 }
      else { s with res := res2,
                    queue := s.queue ++ [{ stype := st, count := qty, completion_time := now + dur,
                                           costM := cm, costC := cc, costD := cd,
                                           expected_duration_s := dur }] }
    else s

/-! Battle resolution (src/systems/battle.py). -/

/-- BattleSystem._compute_power: base attack with default 1 for a type
missing from BASE_SHIP_STATS. -/
def computePower (ships : List (ShipType × ℤ)) : ℤ :=
  (ships.map fun p => p.2 * powerStat p.1).sum

/-- BattleSystem._compute_total_attack (default 0). -/
def totalAttack (ships : List (ShipType × ℤ)) : ℤ :=
  (ships.map fun p => p.2 * attackStat p.1).sum

/-- BattleSystem._compute_total_shield. -/
def totalShield (ships : List (ShipType × ℤ)) : ℤ :=
  (ships.map fun p => p.2 * shieldStat p.1).sum

/-- BattleSystem._compute_total_structure. -/
def totalStructure (ships : List (ShipType × ℤ)) : ℚ :=
  (ships.map fun p => (p.2 : ℚ) * structPoints p.1).sum

/-- Per-side loss fraction: clamp(damage / structure, 0..1), 0 when the side
has no structure. -/
def lossFraction (damage : ℤ) (struct : ℚ) : ℚ :=
  if 0 < struct then min 1 ((damage : ℤ) / struct) else 0

/-- BattleSystem._apply_losses: (losses, remaining). -/
def applyLosses (ships : List (ShipType × ℤ)) (fraction : ℚ) :
    List (ShipType × ℤ) × List (ShipType × ℤ) :=
  if ships = [] ∨ fraction ≤ 0 then ([], ships) else
  let f := max 0 (min 1 fraction)
  ((ships.map fun p => (p.1, min p.2 (truncQ ((p.2 : ℤ) * f)))),
   ships.filterMap fun p =>
     let r := p.2 - min p.2 (truncQ ((p.2 : ℤ) * f))
     if 0 < r then some (p.1, r) else none)

/-- Winner decision: surviving power, then initial power, then draw. -/
def battleWinner (atkRem defRem atkP defP : ℤ) : String :=
  if defRem < atkRem then "attacker"
  else if atkRem < defRem then "defender"
  else if defP < atkP then "attacker"
  else if atkP < defP then "defender"
  else "draw"

/-- The outcome dictionary stored on the Battle component. -/
structure BattleOutcome where
  winner : String
  attacker_power : ℤ
  defender_power : ℤ
  attacker_remaining_power : ℤ
  defender_remaining_power : ℤ
  attacker_losses : List (ShipType × ℤ)
  defender_losses : List (ShipType × ℤ)
  attacker_remaining : List (ShipType × ℤ)
  defender_remaining : List (ShipType × ℤ)
deriving DecidableEq, Repr

/-- A scheduled battle (src/models/components.py `Battle`). -/
structure Battle where
  attacker_id : ℤ
  defender_id : ℤ
  location : Position
  scheduled_time : ℤ
  attacker_ships : List (ShipType × ℤ)
  defender_ships : List (ShipType × ℤ)
  resolved : Bool
  outcome : Option BattleOutcome
deriving DecidableEq, Repr

/-- BattleSystem.process applied to one Battle component. -/
def resolveBattle (battle : Battle) (now : ℤ) : Battle :=
  if battle.resolved ∨ now < battle.scheduled_time then battle else
  let atkPower := computePower battle.attacker_ships
  let defPower := computePower battle.defender_ships
  let dmgToDef := max 0 (totalAttack battle.attacker_ships - totalShield battle.defender_ships)
  let dmgToAtk := max 0 (totalAttack battle.defender_ships - totalShield battle.attacker_ships)
  let defFrac := lossFraction dmgToDef (totalStructure battle.defender_ships)
  let atkFrac := lossFraction dmgToAtk (totalStructure battle.attacker_ships)
  let atkLR := applyLosses battle.attacker_ships atkFrac
  let defLR := applyLosses battle.defender_ships defFrac
  let atkRem := computePower atkLR.2
  let defRem := computePower defLR.2
  { battle with
    resolved := true
    outcome := some
      { winner := battleWinner atkRem defRem atkPower defPower
        attacker_power := atkPower
        defender_power := defPower
        attacker_remaining_power := atkRem
        defender_remaining_power := defRem
        attacker_losses := atkLR.1
        defender_losses := defLR.1
        attacker_remaining := atkLR.2
        defender_remaining := defLR.2 } }

/-- The ECS state visible to the battle system: Battle components plus the
participants' Fleet and Resources components, which BattleSystem.process
never queries or writes. -/
structure BattleWorld where
  battles : List Battle
  fleets : List (ℤ × Fleet)
  resources : List (ℤ × Resources)
deriving DecidableEq, Repr

/-- One run of BattleSystem.process over the world. -/
def battleSystemProcess (w : BattleWorld) (now : ℤ) : BattleWorld :=
  { w with battles := w.battles.map fun b => resolveBattle b now }

/-! Marketplace (GameWorld._handle_trade_create_offer and
_handle_trade_accept_offer, src/core/game.py lines 1993-2198). -/

inductive ResourceKind where
  | metal
  | crystal
  | deuterium
deriving DecidableEq, Repr

def getRes (r : Resources) : ResourceKind → ℤ
  | .metal => r.metal
  | .crystal => r.crystal
  | .deuterium => r.deuterium

def setRes (r : Resources) : ResourceKind → ℤ → Resources
  | .metal, v => { r with metal := v }
  | .crystal, v => { r with crystal := v }
  | .deuterium, v => { r with deuterium := v }

/-- A marketplace offer held in GameWorld._market_offers. -/
structure TradeOffer where
  id : ℤ
  seller_user_id : ℤ
  offered_resource : ResourceKind
  offered_amount : ℤ
  requested_resource : ResourceKind
  requested_amount : ℤ
  status : String
  accepted_by : Option ℤ
deriving DecidableEq, Repr

/-- Market state: per-user Resources components plus the offer list. -/
structure Market where
  players : List (ℤ × Resources)
  offers : List TradeOffer
  next_offer_id : ℤ
deriving DecidableEq, Repr

/-- First Resources component matching a user id (the create-offer scan,
which breaks at the first match). -/
def lookupRes : List (ℤ × Resources) → ℤ → Option Resources
  | [], _ => none
  | (u, r) :: t, uid => if u = uid then some r else lookupRes t uid

/-- Update the first Resources component matching a user id. -/
def updRes : List (ℤ × Resources) → ℤ → (Resources → Resources) → List (ℤ × Resources)
  | [], _, _ => []
  | (u, r) :: t, uid, f => if u = uid then (u, f r) :: t else (u, r) :: updRes t uid f

/-- Last Resources component matching a user id (the accept-offer scan keeps
overwriting its local and never breaks). -/
def lookupResLast (l : List (ℤ × Resources)) (uid : ℤ) : Option Resources :=
  lookupRes l.reverse uid

/-- Update the first offer matching an id. -/
def updOffer : List TradeOffer → ℤ → (TradeOffer → TradeOffer) → List TradeOffer
  | [], _, _ => []
  | o :: t, oid, f => if o.id = oid then f o :: t else o :: updOffer t oid f

/-- Escrow deduction applied to the seller at offer creation. -/
def sellerEscrowFn (oRes : ResourceKind) (oAmt : ℤ) : Resources → Resources :=
  fun rr => setRes rr oRes (getRes rr oRes - oAmt)

/-- The open offer record appended by _handle_trade_create_offer. -/
def newOffer (m : Market) (uid : ℤ) (oRes : ResourceKind) (oAmt : ℤ)
    (rRes : ResourceKind) (rAmt : ℤ) : TradeOffer :=
  { id := m.next_offer_id, seller_user_id := uid,
    offered_resource := oRes, offered_amount := oAmt,
    requested_resource := rRes, requested_amount := rAmt,
    status := "open", accepted_by := none }

/-- GameWorld._handle_trade_create_offer: validates, deducts the offered
amount into escrow, and appends an open offer. -/
def createOffer (m : Market) (uid : ℤ) (oRes : ResourceKind) (oAmt : ℤ)
    (rRes : ResourceKind) (rAmt : ℤ) : Option ℤ × Market :=
  if oAmt ≤ 0 ∨ rAmt ≤ 0 then (none, m) else
  match lookupRes m.players uid with
  | none => (none, m)
  | some r =>
    if getRes r oRes < oAmt then (none, m) else
    (some m.next_offer_id,
     { players := updRes m.players uid (sellerEscrowFn oRes oAmt)
       offers := m.offers ++ [newOffer m uid oRes oAmt rRes rAmt]
       next_offer_id := m.next_offer_id + 1 })

/-- Buyer pays the full requested amount. -/
def buyerPayFn (rRes : ResourceKind) (rAmt : ℤ) : Resources → Resources :=
  fun r => setRes r rRes (getRes r rRes - rAmt)

/-- Seller receives the requested amount net of the fee. -/
def sellerRecvFn (rRes : ResourceKind) (net : ℤ) : Resources → Resources :=
  fun r => setRes r rRes (getRes r rRes + net)

/-- Buyer receives the escrowed offered amount. -/
def buyerRecvFn (oRes : ResourceKind) (oAmt : ℤ) : Resources → Resources :=
  fun r => setRes r oRes (getRes r oRes + oAmt)

/-- Transaction fee withheld from the seller: int(requested * rate) when the
rate is positive, clamped into [0, requested]. -/
def tradeFee (rAmt : ℤ) (feeRate : ℚ) : ℤ :=
  let fee0 := if 0 < feeRate then truncQ ((rAmt : ℤ) * feeRate) else 0
  let fee1 := if fee0 < 0 then 0 else fee0
  if rAmt < fee1 then rAmt else fee1

/-- GameWorld._handle_trade_accept_offer: buyer pays the requested amount,
seller receives it minus the fee, buyer receives the escrowed offered
amount, and the offer is marked accepted. -/
def acceptOffer (m : Market) (buyer oid : ℤ) (feeRate : ℚ) : Bool × Market :=
  match m.offers.find? fun o => o.id = oid with
  | none => (false, m)
  | some offer =>
    if offer.status ≠ "open" then (false, m) else
    if buyer = offer.seller_user_id then (false, m) else
    match lookupResLast m.players buyer, lookupResLast m.players offer.seller_user_id with
    | some buyerRes, some _ =>
      if getRes buyerRes offer.requested_resource < offer.requested_amount then (false, m) else
      (true,
       { m with
         players := updRes (updRes (updRes m.players buyer
             (buyerPayFn offer.requested_resource offer.requested_amount))
             offer.seller_user_id
             (sellerRecvFn offer.requested_resource
               (offer.requested_amount - tradeFee offer.requested_amount feeRate)))
             buyer
             (buyerRecvFn offer.offered_resource offer.offered_amount)
         offers := updOffer m.offers oid fun o =>
           { o with status := "accepted", accepted_by := some buyer } })
    | _, _ => (false, m)

/-! Concrete fixtures used by witnesses and counterexamples. -/

/-- A movement recalled in the same second it departed. -/
def mvRecall0 : FleetMovement :=
  { origin := { galaxy := 1, system := 1, planet := 1 }
    target := { galaxy := 1, system := 1, planet := 5 }
    departure_time := 100
    arrival_time := 105
    speed := 1
    mission := "transfer"
    owner_id := 7
    recalled := false }

/-- A pending light-fighter build entry. -/
def qItem : SBItem :=
  { stype := .light_fighter, count := 1, completion_time := 1000,
    costM := 300, costC := 150, costD := 0, expected_duration_s := 57 }

def zeroBuildings : Buildings :=
  { metal_mine := 0, crystal_mine := 0, deuterium_synthesizer := 0,
    solar_plant := 0, robot_factory := 0, shipyard := 0, fusion_reactor := 0,
    metal_storage := 0, crystal_storage := 0, deuterium_tank := 0 }

/-- Rich player with a level-1 shipyard whose ship queue is already at its
limit of 3 entries. -/
def c3State : BuildState :=
  { res := { metal := 10000, crystal := 10000, deuterium := 10000 }
    b := { zeroBuildings with shipyard := 1 }
    fleet := ⟨0, 0, 0, 0, 0, 0⟩
    queue := [qItem, qItem, qItem]
    research := none }

/-- Player holding 49 light fighters with an empty queue. -/
def s49 : BuildState :=
  { res := { metal := 10000, crystal := 10000, deuterium := 10000 }
    b := { zeroBuildings with shipyard := 1 }
    fleet := ⟨49, 0, 0, 0, 0, 0⟩
    queue := []
    research := none }

/-- Player holding 48 light fighters with an empty queue. -/
def s48 : BuildState :=
  { res := { metal := 10000, crystal := 10000, deuterium := 10000 }
    b := { zeroBuildings with shipyard := 1 }
    fleet := ⟨48, 0, 0, 0, 0, 0⟩
    queue := []
    research := none }

/-- Two light fighters attacking one. -/
def battleTwoVsOne : Battle :=
  { attacker_id := 1, defender_id := 2
    location := { galaxy := 1, system := 1, planet := 1 }
    scheduled_time := 0
    attacker_ships := [(.light_fighter, 2)]
    defender_ships := [(.light_fighter, 1)]
    resolved := false
    outcome := none }

/-- One light fighter against one. -/
def battleOneVsOne : Battle :=
  { attacker_id := 1, defender_id := 2
    location := { galaxy := 1, system := 1, planet := 1 }
    scheduled_time := 0
    attacker_ships := [(.light_fighter, 1)]
    defender_ships := [(.light_fighter, 1)]
    resolved := false
    outcome := none }

/-- Two players with 100 of each resource and no offers yet. -/
def market0 : Market :=
  { players := [(1, { metal := 100, crystal := 100, deuterium := 100 }),
                (2, { metal := 100, crystal := 100, deuterium := 100 })]
    offers := []
    next_offer_id := 1 }

end Ogame

namespace Ogame

/-! Numeric helper lemmas for evaluating floors and rounds on concrete
rationals. -/

theorem le_floorQ {z : ℤ} {q : ℚ} : z ≤ floorQ q ↔ (z : ℚ) ≤ q := Rat.le_floor

theorem floorQ_eq_of {q : ℚ} {k : ℤ} (h1 : (k : ℚ) ≤ q) (h2 : q < (k : ℚ) + 1) :
    floorQ q = k := by
  have ha : k ≤ floorQ q := le_floorQ.mpr h1
  have hb : ¬ (k + 1 ≤ floorQ q) := by
    intro hc
    have := le_floorQ.mp hc
    push_cast at this
    linarith
  omega

theorem floorQ_le {q : ℚ} : (floorQ q : ℚ) ≤ q := le_floorQ.mp le_rfl

theorem rhe_eq_low {q : ℚ} {k : ℤ} (h1 : (k : ℚ) ≤ q) (h2 : q < (k : ℚ) + 1/2) :
    rhe q = k := by
  have hf : floorQ q = k := floorQ_eq_of h1 (by linarith)
  simp only [rhe, hf]
  rw [if_pos (by linarith)]

theorem rhe_eq_high {q : ℚ} {k : ℤ} (h1 : (k : ℚ) + 1/2 < q) (h2 : q < (k : ℚ) + 1) :
    rhe q = k + 1 := by
  have hf : floorQ q = k := floorQ_eq_of (by linarith) h2
  simp only [rhe, hf]
  rw [if_neg (by linarith), if_pos (by linarith)]

theorem truncQ_eq_of {q : ℚ} {k : ℤ} (h0 : 0 ≤ q) (h1 : (k : ℚ) ≤ q)
    (h2 : q < (k : ℚ) + 1) : truncQ q = k := by
  simp only [truncQ]
  rw [if_neg (by linarith), floorQ_eq_of h1 h2]

theorem truncQ_eq_floorQ_of_nonneg {q : ℚ} (h : 0 ≤ q) : truncQ q = floorQ q := by
  simp only [truncQ]
  rw [if_neg (by linarith)]

/-! Claim C4: fleet recall. -/

/-- Claim C4 (amended): with an in-flight movement, a recall before arrival
flips target to origin, marks recalled, resets departure to now and sets
arrival to now plus the elapsed outbound time floored at one second;
a recall of an already recalled movement before arrival is an idempotent
success; a recall at or past arrival fails and changes nothing. -/
theorem c4_recall_amended (mv : FleetMovement) (now : ℤ) :
    (now < mv.arrival_time → mv.recalled = false →
      recallFleet mv now =
        (true, { mv with target := mv.origin, recalled := true,
                         departure_time := now,
                         arrival_time := now + max 1 (now - mv.departure_time) })) ∧
    (now < mv.arrival_time → mv.recalled = true → recallFleet mv now = (true, mv)) ∧
    (mv.arrival_time ≤ now → recallFleet mv now = (false, mv)) := by
  refine ⟨?_, ?_, ?_⟩
  · intro h1 h2
    simp only [recallFleet, if_neg (not_le.mpr h1), h2]
    simp
  · intro h1 h2
    simp only [recallFleet, if_neg (not_le.mpr h1), h2]
    simp
  · intro h1
    simp only [recallFleet, if_pos h1]

/-- Claim C4 counterexample: recalling in the departure second yields
arrival_time = now + 1, not now + (now − old departure_time) = now. -/
theorem c4_recall_counterexample :
    ¬ ((recallFleet mvRecall0 100).2.arrival_time
        = 100 + (100 - mvRecall0.departure_time)) := by
  decide

/-- Claim C4 witness: the amended theorem applied at a concrete movement. -/
theorem c4_recall_witness :
    recallFleet mvRecall0 100 =
      (true, { mvRecall0 with target := mvRecall0.origin, recalled := true,
                              departure_time := 100, arrival_time := 101 }) := by
  have h := (c4_recall_amended mvRecall0 100).1 (by decide) (by decide)
  exact h.trans (by decide)

/-! Claim C1: offline accrual versus one online tick. -/

theorem fusionEntity_req : energyRequired fusionEntity.b = 0 := by
  norm_num [energyRequired, consumptionOf, fusionEntity,
    ENERGY_CONSUMPTION_METAL_MINE, ENERGY_CONSUMPTION_CRYSTAL_MINE,
    ENERGY_CONSUMPTION_DEUTERIUM_SYNTHESIZER, ENERGY_CONSUMPTION_GROWTH]

theorem fusionEntity_onlineFactor : onlineFactor fusionEntity = 1 := by
  rw [onlineFactor, fusionEntity_req]
  simp [energyFactor]

theorem fusionEntity_offlineFactor : offlineFactor fusionEntity = 1 := by
  rw [offlineFactor, fusionEntity_req]
  simp [energyFactor]

theorem fusionEntity_metalQ : metalProductionQ fusionEntity 1 1 = 30 := by
  norm_num [metalProductionQ, fusionEntity, sizeMult, plasmaLvl]

theorem fusionEntity_crystalQ : crystalProductionQ fusionEntity 1 1 = 20 := by
  norm_num [crystalProductionQ, fusionEntity, sizeMult, plasmaLvl]

theorem fusionEntity_deutQ : deuteriumProductionQ fusionEntity 1 1 = 10 := by
  norm_num [deuteriumProductionQ, fusionEntity, sizeMult, tempMult, plasmaLvl]

theorem fusionEntity_capM_online : capMetalOnline fusionEntity = 100000 := by
  rw [capMetalOnline]
  have h : STORAGE_BASE_CAPACITY_METAL
      * STORAGE_CAPACITY_GROWTH_METAL ^ (max 0 fusionEntity.b.metal_storage).toNat
      * sizeMult fusionEntity = 100000 := by
    norm_num [STORAGE_BASE_CAPACITY_METAL, STORAGE_CAPACITY_GROWTH_METAL, fusionEntity, sizeMult]
  rw [h]
  exact truncQ_eq_of (by norm_num) (by norm_num) (by norm_num)

theorem fusionEntity_capC_online : capCrystalOnline fusionEntity = 75000 := by
  rw [capCrystalOnline]
  have h : STORAGE_BASE_CAPACITY_CRYSTAL
      * STORAGE_CAPACITY_GROWTH_CRYSTAL ^ (max 0 fusionEntity.b.crystal_storage).toNat
      * sizeMult fusionEntity = 75000 := by
    norm_num [STORAGE_BASE_CAPACITY_CRYSTAL, STORAGE_CAPACITY_GROWTH_CRYSTAL, fusionEntity, sizeMult]
  rw [h]
  exact truncQ_eq_of (by norm_num) (by norm_num) (by norm_num)

theorem fusionEntity_capD_online : capDeuteriumOnline fusionEntity = 50000 := by
  rw [capDeuteriumOnline]
  have h : STORAGE_BASE_CAPACITY_DEUTERIUM
      * STORAGE_CAPACITY_GROWTH_DEUTERIUM ^ (max 0 fusionEntity.b.deuterium_tank).toNat
      * sizeMult fusionEntity = 50000 := by
    norm_num [STORAGE_BASE_CAPACITY_DEUTERIUM, STORAGE_CAPACITY_GROWTH_DEUTERIUM, fusionEntity, sizeMult]
  rw [h]
  exact truncQ_eq_of (by norm_num) (by norm_num) (by norm_num)

theorem fusionEntity_capM_offline : capMetalOffline fusionEntity = 100000 := by
  rw [capMetalOffline]
  have h : STORAGE_BASE_CAPACITY_METAL
      * STORAGE_CAPACITY_GROWTH_METAL ^ (max 0 fusionEntity.b.metal_storage).toNat = 100000 := by
    norm_num [STORAGE_BASE_CAPACITY_METAL, STORAGE_CAPACITY_GROWTH_METAL, fusionEntity]
  rw [h]
  exact truncQ_eq_of (by norm_num) (by norm_num) (by norm_num)

theorem fusionEntity_capC_offline : capCrystalOffline fusionEntity = 75000 := by
  rw [capCrystalOffline]
  have h : STORAGE_BASE_CAPACITY_CRYSTAL
      * STORAGE_CAPACITY_GROWTH_CRYSTAL ^ (max 0 fusionEntity.b.crystal_storage).toNat = 75000 := by
    norm_num [STORAGE_BASE_CAPACITY_CRYSTAL, STORAGE_CAPACITY_GROWTH_CRYSTAL, fusionEntity]
  rw [h]
  exact truncQ_eq_of (by norm_num) (by norm_num) (by norm_num)

theorem fusionEntity_capD_offline : capDeuteriumOffline fusionEntity = 50000 := by
  rw [capDeuteriumOffline]
  have h : STORAGE_BASE_CAPACITY_DEUTERIUM
      * STORAGE_CAPACITY_GROWTH_DEUTERIUM ^ (max 0 fusionEntity.b.deuterium_tank).toNat = 50000 := by
    norm_num [STORAGE_BASE_CAPACITY_DEUTERIUM, STORAGE_CAPACITY_GROWTH_DEUTERIUM, fusionEntity]
  rw [h]
  exact truncQ_eq_of (by norm_num) (by norm_num) (by norm_num)

theorem fusionEntity_addM_online : addMetalOnline fusionEntity 1 = 30 := by
  rw [addMetalOnline, rawMetalOnline, fusionEntity_onlineFactor, fusionEntity_metalQ,
    fusionEntity_capM_online]
  rw [rhe_eq_low (k := 30) (by norm_num) (by norm_num)]
  decide

theorem fusionEntity_addC_online : addCrystalOnline fusionEntity 1 = 20 := by
  rw [addCrystalOnline, rawCrystalOnline, fusionEntity_onlineFactor, fusionEntity_crystalQ,
    fusionEntity_capC_online]
  rw [rhe_eq_low (k := 20) (by norm_num) (by norm_num)]
  decide

theorem fusionEntity_addD_online : addDeuteriumOnline fusionEntity 1 = 10 := by
  rw [addDeuteriumOnline, rawDeuteriumOnline, fusionEntity_onlineFactor, fusionEntity_deutQ,
    fusionEntity_capD_online]
  rw [rhe_eq_low (k := 10) (by norm_num) (by norm_num)]
  decide

theorem fusionEntity_addM_offline : addMetalOffline fusionEntity 1 = 30 := by
  rw [addMetalOffline, rawMetalOffline, fusionEntity_offlineFactor, fusionEntity_metalQ,
    fusionEntity_capM_offline]
  rw [rhe_eq_low (k := 30) (by norm_num) (by norm_num)]
  decide

theorem fusionEntity_addC_offline : addCrystalOffline fusionEntity 1 = 20 := by
  rw [addCrystalOffline, rawCrystalOffline, fusionEntity_offlineFactor, fusionEntity_crystalQ,
    fusionEntity_capC_offline]
  rw [rhe_eq_low (k := 20) (by norm_num) (by norm_num)]
  decide

theorem fusionEntity_addD_offline : addDeuteriumOffline fusionEntity 1 = 10 := by
  rw [addDeuteriumOffline, rawDeuteriumOffline, fusionEntity_offlineFactor, fusionEntity_deutQ,
    fusionEntity_capD_offline]
  rw [rhe_eq_low (k := 10) (by norm_num) (by norm_num)]
  decide

theorem fusionEntity_consD : fusionDeutConsumption fusionEntity 1 = 5 := by
  rw [fusionDeutConsumption]
  have h : FUSION_DEUTERIUM_CONSUMPTION_PER_LEVEL
      * ((max 0 fusionEntity.b.fusion_reactor : ℤ) : ℚ) * 1 = 5 := by
    norm_num [FUSION_DEUTERIUM_CONSUMPTION_PER_LEVEL, fusionEntity]
  rw [h]
  exact rhe_eq_low (by norm_num) (by norm_num)

/-- Claim C1: the startup offline accrual does not equal one online tick over
the same gap.  On an idle planet with only a level-1 fusion reactor and one
elapsed hour, the online tick consumes 5 deuterium for the reactor (and
counts its energy), while the offline pass does neither: the two runs
disagree on deuterium (105 online versus 110 offline). -/
theorem c1_offline_accrual_diverges :
    onlineProduction fusionEntity 1 = { metal := 530, crystal := 320, deuterium := 105 }
    ∧ offlineAccrual fusionEntity 1 = { metal := 530, crystal := 320, deuterium := 110 }
    ∧ offlineAccrual fusionEntity 1 ≠ onlineProduction fusionEntity 1 := by
  have hon : onlineProduction fusionEntity 1 = { metal := 530, crystal := 320, deuterium := 105 } := by
    rw [onlineProduction, if_neg (by norm_num)]
    rw [fusionEntity_addM_online, fusionEntity_addC_online, fusionEntity_addD_online,
      fusionEntity_consD]
    decide
  have hoff : offlineAccrual fusionEntity 1 = { metal := 530, crystal := 320, deuterium := 110 } := by
    rw [offlineAccrual, if_neg (by norm_num)]
    rw [fusionEntity_addM_offline, fusionEntity_addC_offline, fusionEntity_addD_offline]
    decide
  refine ⟨hon, hoff, ?_⟩
  rw [hon, hoff]
  decide

/-! Claim C5: energy factor and zero production without power plants. -/

theorem consumptionOf_nonneg {base : ℚ} (lvl : ℤ) (hb : 0 ≤ base) :
    0 ≤ consumptionOf base lvl := by
  simp only [consumptionOf]
  have h1 : (0 : ℚ) ≤ ((max 0 lvl : ℤ) : ℚ) := by
    have : (0 : ℤ) ≤ max 0 lvl := le_max_left 0 lvl
    exact_mod_cast this
  have h2 : (0 : ℚ) ≤ ENERGY_CONSUMPTION_GROWTH ^ (max 0 (max 0 lvl - 1)).toNat := by
    norm_num [ENERGY_CONSUMPTION_GROWTH]
  positivity

theorem consumptionOf_pos {base : ℚ} {lvl : ℤ} (hb : 0 < base) (hl : 0 < lvl) :
    0 < consumptionOf base lvl := by
  simp only [consumptionOf]
  have h1 : (0 : ℚ) < ((max 0 lvl : ℤ) : ℚ) := by
    have : (0 : ℤ) < max 0 lvl := lt_max_of_lt_right hl
    exact_mod_cast this
  have h2 : (0 : ℚ) < ENERGY_CONSUMPTION_GROWTH ^ (max 0 (max 0 lvl - 1)).toNat := by
    norm_num [ENERGY_CONSUMPTION_GROWTH]
  positivity

theorem metalProductionQ_factor_zero (pe : PEntity) (h : ℚ) :
    metalProductionQ pe h 0 = 0 := by
  simp only [metalProductionQ]
  split <;> ring

theorem crystalProductionQ_factor_zero (pe : PEntity) (h : ℚ) :
    crystalProductionQ pe h 0 = 0 := by
  simp only [crystalProductionQ]
  split <;> ring

theorem deuteriumProductionQ_factor_zero (pe : PEntity) (h : ℚ) :
    deuteriumProductionQ pe h 0 = 0 := by
  simp only [deuteriumProductionQ]
  split <;> ring

theorem rhe_zero : rhe 0 = 0 := rhe_eq_low (by norm_num) (by norm_num)

/-- Claim C5: the energy factor is 1 when nothing requires energy, 0 when
energy is required but none is produced, and otherwise the ratio clamped to
at most 1 and floored at the soft floor 1/4; consequently an entity with no
solar plant, no fusion reactor and at least one active consumer building
produces nothing in a run: its Resources are unchanged. -/
theorem c5_energy_factor_zero_production (pe : PEntity) (h : ℚ) (hh : 0 < h)
    (hsp : pe.b.solar_plant = 0) (hfr : pe.b.fusion_reactor = 0)
    (hmine : 0 < pe.b.metal_mine ∨ 0 < pe.b.crystal_mine ∨ 0 < pe.b.deuterium_synthesizer) :
    (∀ produced required : ℚ, energyFactor produced required =
      if required ≤ 0 then 1
      else if produced ≤ 0 then 0
      else max (1/4) (min 1 (produced / required))) ∧
    onlineFactor pe = 0 ∧
    onlineProduction pe h = pe.res := by
  have hform : ∀ produced required : ℚ, energyFactor produced required =
      if required ≤ 0 then 1
      else if produced ≤ 0 then 0
      else max (1/4) (min 1 (produced / required)) := by
    intro p r
    rfl
  have hreq : 0 < energyRequired pe.b := by
    have hm0 : 0 ≤ consumptionOf ENERGY_CONSUMPTION_METAL_MINE pe.b.metal_mine :=
      consumptionOf_nonneg _ (by norm_num [ENERGY_CONSUMPTION_METAL_MINE])
    have hc0 : 0 ≤ consumptionOf ENERGY_CONSUMPTION_CRYSTAL_MINE pe.b.crystal_mine :=
      consumptionOf_nonneg _ (by norm_num [ENERGY_CONSUMPTION_CRYSTAL_MINE])
    have hd0 : 0 ≤ consumptionOf ENERGY_CONSUMPTION_DEUTERIUM_SYNTHESIZER pe.b.deuterium_synthesizer :=
      consumptionOf_nonneg _ (by norm_num [ENERGY_CONSUMPTION_DEUTERIUM_SYNTHESIZER])
    rcases hmine with hl | hl | hl
    · have := @consumptionOf_pos ENERGY_CONSUMPTION_METAL_MINE pe.b.metal_mine
        (by norm_num [ENERGY_CONSUMPTION_METAL_MINE]) hl
      simp only [energyRequired]
      linarith
    · have := @consumptionOf_pos ENERGY_CONSUMPTION_CRYSTAL_MINE pe.b.crystal_mine
        (by norm_num [ENERGY_CONSUMPTION_CRYSTAL_MINE]) hl
      simp only [energyRequired]
      linarith
    · have := @consumptionOf_pos ENERGY_CONSUMPTION_DEUTERIUM_SYNTHESIZER pe.b.deuterium_synthesizer
        (by norm_num [ENERGY_CONSUMPTION_DEUTERIUM_SYNTHESIZER]) hl
      simp only [energyRequired]
      linarith
  have hprod : onlineEnergyProduced pe = 0 := by
    have hs : solarRate pe.b = 0 := by
      simp [solarRate, hsp]
    have hf : fusionRate pe.b = 0 := by
      simp [fusionRate, hfr]
    simp [onlineEnergyProduced, hs, hf]
  have hfac : onlineFactor pe = 0 := by
    rw [onlineFactor, energyFactor, if_neg (not_le.mpr hreq), hprod]
    simp
  have haddM : addMetalOnline pe h = 0 := by
    rw [addMetalOnline, rawMetalOnline, hfac, metalProductionQ_factor_zero, rhe_zero]
    simp only [clampAdd]
    omega
  have haddC : addCrystalOnline pe h = 0 := by
    rw [addCrystalOnline, rawCrystalOnline, hfac, crystalProductionQ_factor_zero, rhe_zero]
    simp only [clampAdd]
    omega
  have haddD : addDeuteriumOnline pe h = 0 := by
    rw [addDeuteriumOnline, rawDeuteriumOnline, hfac, deuteriumProductionQ_factor_zero, rhe_zero]
    simp only [clampAdd]
    omega
  have hcons : fusionDeutConsumption pe h = 0 := by
    rw [fusionDeutConsumption, hfr]
    have : FUSION_DEUTERIUM_CONSUMPTION_PER_LEVEL * ((max 0 (0 : ℤ) : ℤ) : ℚ) * h = 0 := by
      norm_num
    rw [this, rhe_zero]
  refine ⟨hform, hfac, ?_⟩
  rw [onlineProduction, if_neg (not_le.mpr hh), haddM, haddC, haddD, hcons]
  simp

/-- Entity used as the C5 witness: one metal mine, no power. -/
theorem c5_witness :
    (0 : ℚ) < 1 ∧
    onlineProduction
      { res := { metal := 500, crystal := 300, deuterium := 100 }
        prod := { metal_rate := 30, crystal_rate := 20, deuterium_rate := 10 }
        b := { metal_mine := 1, crystal_mine := 0, deuterium_synthesizer := 0,
               solar_plant := 0, robot_factory := 0, shipyard := 0,
               fusion_reactor := 0, metal_storage := 0, crystal_storage := 0,
               deuterium_tank := 0 }
        research := none
        planet := none } 1
      = { metal := 500, crystal := 300, deuterium := 100 } := by
  refine ⟨by norm_num, ?_⟩
  exact (c5_energy_factor_zero_production _ 1 (by norm_num) (by decide) (by decide)
    (Or.inl (by decide))).2.2

/-! Claim C10: a production run only adds, up to capacity, except fusion
deuterium consumption. -/

/-- Claim C10: in one production run over positive elapsed time, each
resource receives exactly max(0, min(rounded production, capacity − current))
so metal and crystal never decrease and a balance at or above capacity stays
unchanged; deuterium additionally loses the fusion consumption, floored at
zero, only when that consumption is positive. -/
theorem c10_production_clamping (pe : PEntity) (h : ℚ) (hh : 0 < h) :
    (onlineProduction pe h).metal
      = pe.res.metal + max 0 (min (rawMetalOnline pe h) (capMetalOnline pe - pe.res.metal)) ∧
    (onlineProduction pe h).crystal
      = pe.res.crystal + max 0 (min (rawCrystalOnline pe h) (capCrystalOnline pe - pe.res.crystal)) ∧
    pe.res.metal ≤ (onlineProduction pe h).metal ∧
    pe.res.crystal ≤ (onlineProduction pe h).crystal ∧
    (capMetalOnline pe ≤ pe.res.metal → (onlineProduction pe h).metal = pe.res.metal) ∧
    (capCrystalOnline pe ≤ pe.res.crystal → (onlineProduction pe h).crystal = pe.res.crystal) ∧
    (fusionDeutConsumption pe h ≤ 0 →
      (onlineProduction pe h).deuterium
        = pe.res.deuterium
            + max 0 (min (rawDeuteriumOnline pe h) (capDeuteriumOnline pe - pe.res.deuterium)) ∧
      pe.res.deuterium ≤ (onlineProduction pe h).deuterium) ∧
    (0 < fusionDeutConsumption pe h →
      (onlineProduction pe h).deuterium
        = max 0 (pe.res.deuterium
            + max 0 (min (rawDeuteriumOnline pe h) (capDeuteriumOnline pe - pe.res.deuterium))
            - fusionDeutConsumption pe h) ∧
      0 ≤ (onlineProduction pe h).deuterium ∧
      pe.res.deuterium - fusionDeutConsumption pe h ≤ (onlineProduction pe h).deuterium) := by
  rw [onlineProduction, if_neg (not_le.mpr hh)]
  simp only [addMetalOnline, addCrystalOnline, addDeuteriumOnline, clampAdd]
  refine ⟨by omega, by omega, by omega, by omega, by omega, by omega, ?_, ?_⟩
  · intro hc
    rw [if_neg (by omega)]
    omega
  · intro hc
    rw [if_pos hc]
    omega

/-- Claim C10 witness: the clamping theorem applied to a concrete entity. -/
theorem c10_witness :
    (0 : ℚ) < 1 ∧
    fusionEntity.res.metal ≤ (onlineProduction fusionEntity 1).metal ∧
    fusionEntity.res.crystal ≤ (onlineProduction fusionEntity 1).crystal := by
  have h := c10_production_clamping fusionEntity 1 (by norm_num)
  exact ⟨by norm_num, h.2.2.1, h.2.2.2.1⟩

/-! Claim C2: fleet dispatch travel time. -/

theorem pos_foldl_min {l : List ℤ} {a : ℤ} (ha : 0 < a) (hl : ∀ x ∈ l, 0 < x) :
    0 < l.foldl min a := by
  induction l generalizing a with
  | nil => exact ha
  | cons b t ih =>
    exact ih (lt_min ha (hl b (by simp))) fun x hx => hl x (by simp [hx])

theorem le_foldl_max {a : ℤ} (l : List ℤ) : a ≤ l.foldl max a := by
  induction l generalizing a with
  | nil => exact le_rfl
  | cons b t ih => exact le_trans (le_max_left a b) ih

theorem compSpeeds_mem_pos {research : Option Research} {comp : List (ShipType × ℤ)}
    {x : ℤ} (hx : x ∈ compSpeeds research comp) : 0 < x := by
  simp only [compSpeeds, List.mem_filterMap] at hx
  obtain ⟨q, _, he⟩ := hx
  split_ifs at he with h1 h2
  exact Option.some_injective _ he ▸ h2

theorem ownedSpeeds_mem_pos {research : Option Research} {f : Fleet}
    {x : ℤ} (hx : x ∈ ownedSpeeds research f) : 0 < x := by
  simp only [ownedSpeeds, List.mem_filterMap] at hx
  obtain ⟨st, _, he⟩ := hx
  split_ifs at he with h1 h2
  exact Option.some_injective _ he ▸ h2

theorem distanceUnits_nonneg (o t : Position) : 0 ≤ distanceUnits o t := by
  simp only [distanceUnits, SYSTEMS_PER_GALAXY, POSITIONS_PER_SYSTEM]
  positivity

theorem effectiveSpeedQ_pos (research : Option Research) (f : Fleet)
    (comp : List (ShipType × ℤ)) (speedParam : Option ℚ) :
    0 < effectiveSpeedQ research f comp speedParam :=
  lt_of_lt_of_le one_pos (le_max_left _ _)

/-- Claim C2 (amended): a dispatch to valid coordinates stores departure now
and arrival now plus max(1, floor(dist / speed * 3600)) seconds (the code
truncates instead of rounding), where the speed is the slowest positive-count
ship of the composition (else the fastest owned, else the light-fighter
stat), scaled by the user factor after out-of-range factors are replaced by
1, with the scaled speed itself floored at 1 unit per hour. -/
theorem c2_dispatch_amended (pos : Position) (research : Option Research) (f : Fleet)
    (g s p : ℤ) (mission : String) (speedParam : Option ℚ)
    (comp : List (ShipType × ℤ)) (now owner : ℤ)
    (hg : 0 < g) (hs : 0 < s) (hp : 0 < p) :
    handleFleetDispatch pos research f g s p mission speedParam comp now owner
      = some
        { origin := pos
          target := { galaxy := g, system := s, planet := p }
          departure_time := now
          arrival_time := now + max 1 (floorQ
            ((distanceUnits pos { galaxy := g, system := s, planet := p } : ℤ) * 3600
              / max 1 ((baseEffectiveSpeed research f comp : ℤ) * userFactor speedParam)))
          speed := effectiveSpeedQ research f comp speedParam
          mission := if mission = "" then "transfer" else mission
          owner_id := owner
          recalled := false }
    ∧ (∀ sp0 rest, compSpeeds research comp = sp0 :: rest →
        baseEffectiveSpeed research f comp = rest.foldl min sp0)
    ∧ (compSpeeds research comp = [] →
        ∀ sp0 rest, ownedSpeeds research f = sp0 :: rest →
          baseEffectiveSpeed research f comp = rest.foldl max sp0) := by
  refine ⟨?_, ?_, ?_⟩
  · rw [handleFleetDispatch, if_neg (by push_neg; exact ⟨hg, hs, hp⟩)]
    have harr : travelDuration research f comp speedParam pos { galaxy := g, system := s, planet := p }
        = max 1 (floorQ
            ((distanceUnits pos { galaxy := g, system := s, planet := p } : ℤ) * 3600
              / max 1 ((baseEffectiveSpeed research f comp : ℤ) * userFactor speedParam))) := by
      rw [travelDuration]
      have hq : ((distanceUnits pos { galaxy := g, system := s, planet := p } : ℤ) : ℚ)
          / effectiveSpeedQ research f comp speedParam * 3600
          = ((distanceUnits pos { galaxy := g, system := s, planet := p } : ℤ) : ℚ) * 3600
            / max 1 ((baseEffectiveSpeed research f comp : ℤ) * userFactor speedParam) := by
        rw [effectiveSpeedQ, div_mul_eq_mul_div]
      rw [hq]
      have hnn : (0 : ℚ) ≤ ((distanceUnits pos { galaxy := g, system := s, planet := p } : ℤ) : ℚ) * 3600
          / max 1 ((baseEffectiveSpeed research f comp : ℤ) * userFactor speedParam) := by
        apply div_nonneg
        · have := distanceUnits_nonneg pos { galaxy := g, system := s, planet := p }
          have hc : (0 : ℚ) ≤ ((distanceUnits pos { galaxy := g, system := s, planet := p } : ℤ) : ℚ) := by
            exact_mod_cast this
          linarith
        · exact le_trans zero_le_one (le_max_left _ _)
      rw [truncQ_eq_floorQ_of_nonneg hnn]
      split <;> omega
    rw [harr]
  · intro sp0 rest hc
    have hpos : 0 < rest.foldl min sp0 := by
      apply pos_foldl_min
      · exact compSpeeds_mem_pos (hc ▸ List.mem_cons_self sp0 rest)
      · intro x hx
        exact compSpeeds_mem_pos (hc ▸ List.mem_cons_of_mem sp0 hx)
    rw [baseEffectiveSpeed, hc]
    simp only [if_pos hpos]
  · intro hc sp0 rest ho
    have hpos : 0 < rest.foldl max sp0 := by
      have h0 : 0 < sp0 := ownedSpeeds_mem_pos (ho ▸ List.mem_cons_self sp0 rest)
      exact lt_of_lt_of_le h0 (le_foldl_max rest)
    rw [baseEffectiveSpeed, hc, ho]
    simp only [lt_irrefl, if_false, if_pos hpos]

/-- Claim C2 counterexample: a 13-position hop with one light fighter at
base speed 12500 stores int(3.744) = 3 seconds, while the claimed formula
max(1, round(3.744)) gives 4. -/
theorem c2_dispatch_counterexample :
    distanceUnits { galaxy := 1, system := 1, planet := 1 } { galaxy := 1, system := 1, planet := 14 } = 13
    ∧ handleFleetDispatch { galaxy := 1, system := 1, planet := 1 } none ⟨0, 0, 0, 0, 0, 0⟩
        1 1 14 "transfer" none [(ShipType.light_fighter, 1)] 0 1
      = some { origin := { galaxy := 1, system := 1, planet := 1 }
               target := { galaxy := 1, system := 1, planet := 14 }
               departure_time := 0
               arrival_time := 3
               speed := 12500
               mission := "transfer"
               owner_id := 1
               recalled := false }
    ∧ max 1 (rhe (((13 : ℤ) : ℚ) / (12500 * 1) * 3600)) = 4 := by
  have hdist : distanceUnits { galaxy := 1, system := 1, planet := 1 }
      { galaxy := 1, system := 1, planet := 14 } = 13 := by decide
  have hbonus : speedBonus none = 1 := by norm_num [speedBonus]
  have hspeed : shipSpeed none .light_fighter = 12500 := by
    rw [shipSpeed]
    simp only [baseSpeedStat, hbonus]
    have h : ((12500 : ℤ) : ℚ) * 1 = 12500 := by norm_num
    rw [h]
    exact truncQ_eq_of (by norm_num) (by norm_num) (by norm_num)
  have hcomp : compSpeeds none [(ShipType.light_fighter, 1)] = [12500] := by
    simp [compSpeeds, hspeed]
  have hbase : baseEffectiveSpeed none ⟨0, 0, 0, 0, 0, 0⟩ [(ShipType.light_fighter, 1)] = 12500 := by
    rw [baseEffectiveSpeed, hcomp]
    norm_num
  have heff : effectiveSpeedQ none ⟨0, 0, 0, 0, 0, 0⟩ [(ShipType.light_fighter, 1)] none = 12500 := by
    rw [effectiveSpeedQ, hbase, userFactor]
    norm_num
  have hdur : travelDuration none ⟨0, 0, 0, 0, 0, 0⟩ [(ShipType.light_fighter, 1)] none
      { galaxy := 1, system := 1, planet := 1 } { galaxy := 1, system := 1, planet := 14 } = 3 := by
    rw [travelDuration, heff, hdist]
    have h : ((13 : ℤ) : ℚ) / 12500 * 3600 = 468/125 := by norm_num
    rw [h, truncQ_eq_of (k := 3) (by norm_num) (by norm_num) (by norm_num)]
    decide
  refine ⟨hdist, ?_, ?_⟩
  · rw [handleFleetDispatch, if_neg (by decide)]
    rw [hdur, heff]
    decide
  · have h : ((13 : ℤ) : ℚ) / (12500 * 1) * 3600 = 468/125 := by norm_num
    rw [h]
    have h4 : rhe (468/125 : ℚ) = 3 + 1 := rhe_eq_high (by norm_num) (by norm_num)
    rw [h4]
    decide

/-- Claim C2 witness: the amended dispatch theorem at a concrete input. -/
theorem c2_dispatch_witness :
    (0 : ℤ) < 1 ∧ (0 : ℤ) < 14 ∧
    (handleFleetDispatch { galaxy := 1, system := 1, planet := 1 } none ⟨0, 0, 0, 0, 0, 0⟩
        1 1 14 "transfer" none [(ShipType.light_fighter, 1)] 0 1).isSome = true := by
  have h := (c2_dispatch_amended { galaxy := 1, system := 1, planet := 1 } none ⟨0, 0, 0, 0, 0, 0⟩
    1 1 14 "transfer" none [(ShipType.light_fighter, 1)] 0 1
    (by decide) (by decide) (by decide)).1
  exact ⟨by decide, by decide, by rw [h]; rfl⟩

/-! Claims C3 and C6: ship building. -/

theorem queuedTotal_append (q : List SBItem) (i : SBItem) :
    queuedTotal (q ++ [i]) = queuedTotal q + i.count := by
  simp [queuedTotal]

/-- The accepting run of _handle_build_ships: every check passes and the
request is enqueued. -/
theorem handleBuildShips_accepts (s : BuildState) (stn : String) (st : ShipType)
    (qty now : ℤ)
    (hne : ¬ stn = "") (hp : parseShipType stn = some st)
    (hy : 0 < s.b.shipyard)
    (hcap : fleetTotal s.fleet + queuedTotal s.queue + max 1 qty ≤ maxFleetAllowed s.research)
    (hm : (shipCost st).1 * max 1 qty ≤ s.res.metal)
    (hc : (shipCost st).2.1 * max 1 qty ≤ s.res.crystal)
    (hd : (shipCost st).2.2 * max 1 qty ≤ s.res.deuterium)
    (hq : (s.queue.length : ℤ)
      < SHIPYARD_QUEUE_BASE_LIMIT + SHIPYARD_QUEUE_PER_LEVEL * max 0 s.b.shipyard) :
    handleBuildShips s stn qty now =
      { s with
        res := { metal := s.res.metal - (shipCost st).1 * max 1 qty
                 crystal := s.res.crystal - (shipCost st).2.1 * max 1 qty
                 deuterium := s.res.deuterium - (shipCost st).2.2 * max 1 qty }
        queue := s.queue ++
          [{ stype := st, count := max 1 qty
             completion_time := now + shipBuildDuration st (max 1 qty) s.b.shipyard s.b.robot_factory s.research
             costM := (shipCost st).1 * max 1 qty
             costC := (shipCost st).2.1 * max 1 qty
             costD := (shipCost st).2.2 * max 1 qty
             expected_duration_s := shipBuildDuration st (max 1 qty) s.b.shipyard s.b.robot_factory s.research }] } := by
  simp only [handleBuildShips, if_neg hne, hp]
  rw [if_neg (not_le.mpr hy), if_neg (not_lt.mpr (by omega)), if_pos ⟨hm, hc, hd⟩,
    if_neg (not_le.mpr hq)]

/-- Claim C3: rejected build_ships commands are not all silent no-ops.  With
a level-1 shipyard (queue limit 3) and three queued entries, a valid request
for one light fighter is rejected at the queue-length check, yet the
resources have already been deducted: metal and crystal drop by the full
cost while the queue and fleet stay unchanged. -/
theorem c3_queue_limit_rejection_spends :
    handleBuildShips c3State "light_fighter" 1 0 =
      { c3State with res := { metal := 9700, crystal := 9850, deuterium := 10000 } } := by
  decide

/-- Claim C6: the fleet-cap invariant is preserved by every build_ships
command, and the boundary examples behave as specified: a holder of 49
light fighters requesting 2 is rejected unchanged, while a holder of 48 gets
a queue entry of count 2. -/
theorem c6_fleet_cap :
    (∀ (s : BuildState) (stn : String) (qty now : ℤ),
      fleetTotal s.fleet + queuedTotal s.queue ≤ maxFleetAllowed s.research →
      fleetTotal (handleBuildShips s stn qty now).fleet
        + queuedTotal (handleBuildShips s stn qty now).queue
        ≤ maxFleetAllowed (handleBuildShips s stn qty now).research) ∧
    handleBuildShips s49 "light_fighter" 2 0 = s49 ∧
    (handleBuildShips s48 "light_fighter" 2 0).queue.map SBItem.count = [2] := by
  refine ⟨?_, ?_, ?_⟩
  · intro s stn qty now hle
    by_cases h0 : stn = ""
    · simpa [handleBuildShips, h0] using hle
    · rw [handleBuildShips, if_neg h0]
      cases hp : parseShipType stn with
      | none => simpa using hle
      | some st =>
        simp only []
        by_cases h1 : s.b.shipyard ≤ 0
        · simpa [if_pos h1] using hle
        rw [if_neg h1]
        by_cases h2 : maxFleetAllowed s.research < fleetTotal s.fleet + queuedTotal s.queue + max 1 qty
        · simpa [if_pos h2] using hle
        rw [if_neg h2]
        by_cases h3 : (shipCost st).1 * max 1 qty ≤ s.res.metal
            ∧ (shipCost st).2.1 * max 1 qty ≤ s.res.crystal
            ∧ (shipCost st).2.2 * max 1 qty ≤ s.res.deuterium
        · rw [if_pos h3]
          by_cases h4 : SHIPYARD_QUEUE_BASE_LIMIT
              + SHIPYARD_QUEUE_PER_LEVEL * max 0 s.b.shipyard ≤ (s.queue.length : ℤ)
          · simpa [if_pos h4] using hle
          · rw [if_neg h4]
            simp only [queuedTotal_append]
            omega
        · simpa [if_neg h3] using hle
  · decide
  · rw [handleBuildShips_accepts s48 "light_fighter" .light_fighter 2 0
      (by decide) (by decide) (by decide) (by decide) (by decide) (by decide) (by decide) (by decide)]
    simp [s48]

/-- Claim C6 witness: the invariant applied at a concrete state. -/
theorem c6_fleet_cap_witness :
    fleetTotal s48.fleet + queuedTotal s48.queue ≤ maxFleetAllowed s48.research ∧
    fleetTotal (handleBuildShips s48 "light_fighter" 2 0).fleet
      + queuedTotal (handleBuildShips s48 "light_fighter" 2 0).queue
      ≤ maxFleetAllowed (handleBuildShips s48 "light_fighter" 2 0).research := by
  have h := c6_fleet_cap.1 s48 "light_fighter" 2 0 (by decide)
  exact ⟨by decide, h⟩

/-! Claims C7 and C9: battle resolution. -/

theorem applyLosses_single (st : ShipType) (c : ℤ) (fr : ℚ) (hfr : 0 < fr)
    (d : ℤ) (hd : truncQ ((c : ℤ) * max 0 (min 1 fr)) = d) :
    applyLosses [(st, c)] fr =
      ([(st, min c d)],
       if 0 < c - min c d then [(st, c - min c d)] else []) := by
  rw [applyLosses, if_neg (by simp [not_le.mpr hfr])]
  simp [hd, List.filterMap_cons]
  by_cases hdc : d < c
  · simp [hdc]
  · simp [hdc]

theorem twoThirds_truncQ : truncQ (((2 : ℤ) : ℚ) * max 0 (min 1 (1/3))) = 0 := by
  have h : ((2 : ℤ) : ℚ) * max 0 (min 1 (1/3)) = 2/3 := by norm_num
  rw [h]
  exact truncQ_eq_of (by norm_num) (by norm_num) (by norm_num)

theorem one_truncQ : truncQ (((1 : ℤ) : ℚ) * max 0 (min 1 1)) = 1 := by
  have h : ((1 : ℤ) : ℚ) * max 0 (min 1 (1 : ℚ)) = 1 := by norm_num
  rw [h]
  exact truncQ_eq_of (by norm_num) (by norm_num) (by norm_num)

theorem eightNinths_truncQ : truncQ (((1 : ℤ) : ℚ) * max 0 (min 1 (8/9))) = 0 := by
  have h : ((1 : ℤ) : ℚ) * max 0 (min 1 (8/9 : ℚ)) = 8/9 := by norm_num
  rw [h]
  exact truncQ_eq_of (by norm_num) (by norm_num) (by norm_num)

/-- Claim C7: battle resolution computes the per-side totals, shielded
damage, clamped loss fractions with floored per-type losses and the
surviving-power winner rule, marking the battle resolved; on 2-vs-1 light
fighters the attacker wins with powers 100 and 50, and 1-vs-1 is a draw with
equal powers. -/
theorem c7_battle_resolution :
    (∀ (battle : Battle) (now : ℤ), battle.resolved = false → battle.scheduled_time ≤ now →
      resolveBattle battle now =
        { battle with
          resolved := true
          outcome := some
            { winner := battleWinner
                (computePower (applyLosses battle.attacker_ships
                  (lossFraction (max 0 (totalAttack battle.defender_ships - totalShield battle.attacker_ships))
                    (totalStructure battle.attacker_ships))).2)
                (computePower (applyLosses battle.defender_ships
                  (lossFraction (max 0 (totalAttack battle.attacker_ships - totalShield battle.defender_ships))
                    (totalStructure battle.defender_ships))).2)
                (computePower battle.attacker_ships)
                (computePower battle.defender_ships)
              attacker_power := computePower battle.attacker_ships
              defender_power := computePower battle.defender_ships
              attacker_remaining_power := computePower (applyLosses battle.attacker_ships
                (lossFraction (max 0 (totalAttack battle.defender_ships - totalShield battle.attacker_ships))
                  (totalStructure battle.attacker_ships))).2
              defender_remaining_power := computePower (applyLosses battle.defender_ships
                (lossFraction (max 0 (totalAttack battle.attacker_ships - totalShield battle.defender_ships))
                  (totalStructure battle.defender_ships))).2
              attacker_losses := (applyLosses battle.attacker_ships
                (lossFraction (max 0 (totalAttack battle.defender_ships - totalShield battle.attacker_ships))
                  (totalStructure battle.attacker_ships))).1
              defender_losses := (applyLosses battle.defender_ships
                (lossFraction (max 0 (totalAttack battle.attacker_ships - totalShield battle.defender_ships))
                  (totalStructure battle.defender_ships))).1
              attacker_remaining := (applyLosses battle.attacker_ships
                (lossFraction (max 0 (totalAttack battle.defender_ships - totalShield battle.attacker_ships))
                  (totalStructure battle.attacker_ships))).2
              defender_remaining := (applyLosses battle.defender_ships
                (lossFraction (max 0 (totalAttack battle.attacker_ships - totalShield battle.defender_ships))
                  (totalStructure battle.defender_ships))).2 } }) ∧
    resolveBattle battleTwoVsOne 0 =
      { battleTwoVsOne with
        resolved := true
        outcome := some
          { winner := "attacker"
            attacker_power := 100
            defender_power := 50
            attacker_remaining_power := 100
            defender_remaining_power := 0
            attacker_losses := [(.light_fighter, 0)]
            defender_losses := [(.light_fighter, 1)]
            attacker_remaining := [(.light_fighter, 2)]
            defender_remaining := [] } } ∧
    resolveBattle battleOneVsOne 0 =
      { battleOneVsOne with
        resolved := true
        outcome := some
          { winner := "draw"
            attacker_power := 50
            defender_power := 50
            attacker_remaining_power := 50
            defender_remaining_power := 50
            attacker_losses := [(.light_fighter, 0)]
            defender_losses := [(.light_fighter, 0)]
            attacker_remaining := [(.light_fighter, 1)]
            defender_remaining := [(.light_fighter, 1)] } } := by
  have hgen : ∀ (battle : Battle) (now : ℤ), battle.resolved = false → battle.scheduled_time ≤ now →
      resolveBattle battle now =
        { battle with
          resolved := true
          outcome := some
            { winner := battleWinner
                (computePower (applyLosses battle.attacker_ships
                  (lossFraction (max 0 (totalAttack battle.defender_ships - totalShield battle.attacker_ships))
                    (totalStructure battle.attacker_ships))).2)
                (computePower (applyLosses battle.defender_ships
                  (lossFraction (max 0 (totalAttack battle.attacker_ships - totalShield battle.defender_ships))
                    (totalStructure battle.defender_ships))).2)
                (computePower battle.attacker_ships)
                (computePower battle.defender_ships)
              attacker_power := computePower battle.attacker_ships
              defender_power := computePower battle.defender_ships
              attacker_remaining_power := computePower (applyLosses battle.attacker_ships
                (lossFraction (max 0 (totalAttack battle.defender_ships - totalShield battle.attacker_ships))
                  (totalStructure battle.attacker_ships))).2
              defender_remaining_power := computePower (applyLosses battle.defender_ships
                (lossFraction (max 0 (totalAttack battle.attacker_ships - totalShield battle.defender_ships))
                  (totalStructure battle.defender_ships))).2
              attacker_losses := (applyLosses battle.attacker_ships
                (lossFraction (max 0 (totalAttack battle.defender_ships - totalShield battle.attacker_ships))
                  (totalStructure battle.attacker_ships))).1
              defender_losses := (applyLosses battle.defender_ships
                (lossFraction (max 0 (totalAttack battle.attacker_ships - totalShield battle.defender_ships))
                  (totalStructure battle.defender_ships))).1
              attacker_remaining := (applyLosses battle.attacker_ships
                (lossFraction (max 0 (totalAttack battle.defender_ships - totalShield battle.attacker_ships))
                  (totalStructure battle.attacker_ships))).2
              defender_remaining := (applyLosses battle.defender_ships
                (lossFraction (max 0 (totalAttack battle.attacker_ships - totalShield battle.defender_ships))
                  (totalStructure battle.defender_ships))).2 } } := by
    intro battle now hres hsched
    rw [resolveBattle, if_neg (by simp [hres, not_lt.mpr hsched])]
  refine ⟨hgen, ?_, ?_⟩
  · rw [hgen battleTwoVsOne 0 rfl (by decide)]
    have hAtk : totalAttack battleTwoVsOne.attacker_ships = 100 := by
      norm_num [battleTwoVsOne, totalAttack, attackStat]
    have hDefAtk : totalAttack battleTwoVsOne.defender_ships = 50 := by
      norm_num [battleTwoVsOne, totalAttack, attackStat]
    have hAtkSh : totalShield battleTwoVsOne.attacker_ships = 20 := by
      norm_num [battleTwoVsOne, totalShield, shieldStat]
    have hDefSh : totalShield battleTwoVsOne.defender_ships = 10 := by
      norm_num [battleTwoVsOne, totalShield, shieldStat]
    have hAtkSt : totalStructure battleTwoVsOne.attacker_ships = 90 := by
      norm_num [battleTwoVsOne, totalStructure, structPoints, shipCost]
    have hDefSt : totalStructure battleTwoVsOne.defender_ships = 45 := by
      norm_num [battleTwoVsOne, totalStructure, structPoints, shipCost]
    have hfracA : lossFraction (max 0 (totalAttack battleTwoVsOne.defender_ships
        - totalShield battleTwoVsOne.attacker_ships)) (totalStructure battleTwoVsOne.attacker_ships)
        = 1/3 := by
      rw [hDefAtk, hAtkSh, hAtkSt, lossFraction, if_pos (by norm_num)]
      norm_num
    have hfracD : lossFraction (max 0 (totalAttack battleTwoVsOne.attacker_ships
        - totalShield battleTwoVsOne.defender_ships)) (totalStructure battleTwoVsOne.defender_ships)
        = 1 := by
      rw [hAtk, hDefSh, hDefSt, lossFraction, if_pos (by norm_num)]
      norm_num
    have hLA : applyLosses battleTwoVsOne.attacker_ships (1/3)
        = ([(.light_fighter, 0)], [(.light_fighter, 2)]) := by
      show applyLosses [(ShipType.light_fighter, 2)] (1/3) = _
      rw [applyLosses_single _ _ _ (by norm_num) 0 twoThirds_truncQ]
      norm_num
    have hLD : applyLosses battleTwoVsOne.defender_ships 1
        = ([(.light_fighter, 1)], []) := by
      show applyLosses [(ShipType.light_fighter, 1)] 1 = _
      rw [applyLosses_single _ _ _ (by norm_num) 1 one_truncQ]
      norm_num
    rw [hfracA, hfracD, hLA, hLD]
    norm_num [computePower, powerStat, attackStat, battleTwoVsOne, battleWinner]
  · rw [hgen battleOneVsOne 0 rfl (by decide)]
    have hAtk : totalAttack battleOneVsOne.attacker_ships = 50 := by
      norm_num [battleOneVsOne, totalAttack, attackStat]
    have hDefAtk : totalAttack battleOneVsOne.defender_ships = 50 := by
      norm_num [battleOneVsOne, totalAttack, attackStat]
    have hAtkSh : totalShield battleOneVsOne.attacker_ships = 10 := by
      norm_num [battleOneVsOne, totalShield, shieldStat]
    have hDefSh : totalShield battleOneVsOne.defender_ships = 10 := by
      norm_num [battleOneVsOne, totalShield, shieldStat]
    have hAtkSt : totalStructure battleOneVsOne.attacker_ships = 45 := by
      norm_num [battleOneVsOne, totalStructure, structPoints, shipCost]
    have hDefSt : totalStructure battleOneVsOne.defender_ships = 45 := by
      norm_num [battleOneVsOne, totalStructure, structPoints, shipCost]
    have hfracA : lossFraction (max 0 (totalAttack battleOneVsOne.defender_ships
        - totalShield battleOneVsOne.attacker_ships)) (totalStructure battleOneVsOne.attacker_ships)
        = 8/9 := by
      rw [hDefAtk, hAtkSh, hAtkSt, lossFraction, if_pos (by norm_num)]
      norm_num
    have hfracD : lossFraction (max 0 (totalAttack battleOneVsOne.attacker_ships
        - totalShield battleOneVsOne.defender_ships)) (totalStructure battleOneVsOne.defender_ships)
        = 8/9 := by
      rw [hAtk, hDefSh, hDefSt, lossFraction, if_pos (by norm_num)]
      norm_num
    have hL : applyLosses [(ShipType.light_fighter, 1)] (8/9)
        = ([(.light_fighter, 0)], [(.light_fighter, 1)]) := by
      rw [applyLosses_single _ _ _ (by norm_num) 0 eightNinths_truncQ]
      norm_num
    rw [hfracA, hfracD]
    rw [show battleOneVsOne.attacker_ships = [(ShipType.light_fighter, 1)] from rfl,
      show battleOneVsOne.defender_ships = [(ShipType.light_fighter, 1)] from rfl, hL]
    norm_num [computePower, powerStat, attackStat, battleWinner]
    exact ⟨rfl, rfl⟩

/-- Claim C7 witness: the general resolution shape applied at a concrete
battle. -/
theorem c7_battle_witness :
    battleTwoVsOne.resolved = false ∧ battleTwoVsOne.scheduled_time ≤ 0 ∧
    (resolveBattle battleTwoVsOne 0).resolved = true := by
  have h := c7_battle_resolution.1 battleTwoVsOne 0 rfl (by decide)
  refine ⟨rfl, by decide, ?_⟩
  rw [h]

/-- Claim C9: one run of the battle system only rewrites Battle components;
the Fleet and Resources components of every participant are untouched, and
even within a Battle only the outcome and resolved flag change: the recorded
losses are never applied to any fleet. -/
theorem c9_battle_frame (w : BattleWorld) (now : ℤ) :
    (battleSystemProcess w now).fleets = w.fleets ∧
    (battleSystemProcess w now).resources = w.resources ∧
    (battleSystemProcess w now).battles = w.battles.map (fun b => resolveBattle b now) ∧
    ∀ b : Battle,
      (resolveBattle b now).attacker_id = b.attacker_id ∧
      (resolveBattle b now).defender_id = b.defender_id ∧
      (resolveBattle b now).location = b.location ∧
      (resolveBattle b now).scheduled_time = b.scheduled_time ∧
      (resolveBattle b now).attacker_ships = b.attacker_ships ∧
      (resolveBattle b now).defender_ships = b.defender_ships := by
  refine ⟨rfl, rfl, rfl, ?_⟩
  intro b
  rw [resolveBattle]
  split
  · exact ⟨rfl, rfl, rfl, rfl, rfl, rfl⟩
  · exact ⟨rfl, rfl, rfl, rfl, rfl, rfl⟩

/-! Claim C8: marketplace escrow and conservation. -/

theorem lookupRes_updRes_self (l : List (ℤ × Resources)) (uid : ℤ) (f : Resources → Resources) :
    lookupRes (updRes l uid f) uid = (lookupRes l uid).map f := by
  induction l with
  | nil => rfl
  | cons hd t ih =>
    obtain ⟨u, r⟩ := hd
    by_cases h : u = uid
    · simp [updRes, lookupRes, h]
    · simp [updRes, lookupRes, h, ih]

theorem lookupRes_updRes_ne (l : List (ℤ × Resources)) (uid u : ℤ)
    (f : Resources → Resources) (h : u ≠ uid) :
    lookupRes (updRes l uid f) u = lookupRes l u := by
  induction l with
  | nil => rfl
  | cons hd t ih =>
    obtain ⟨u2, r⟩ := hd
    by_cases h2 : u2 = uid
    · subst h2
      simp [updRes, lookupRes, Ne.symm h]
    · by_cases h4 : u2 = u
      · subst h4
        simp [updRes, lookupRes, h2]
      · simp [updRes, lookupRes, h2, h4, ih]

theorem updRes_keys (l : List (ℤ × Resources)) (uid : ℤ) (f : Resources → Resources) :
    (updRes l uid f).map Prod.fst = l.map Prod.fst := by
  induction l with
  | nil => rfl
  | cons hd t ih =>
    obtain ⟨u, r⟩ := hd
    by_cases h : u = uid
    · simp [updRes, h]
    · simp [updRes, h, ih]

theorem lookupRes_eq_none_of_not_mem (l : List (ℤ × Resources)) (uid : ℤ)
    (h : uid ∉ l.map Prod.fst) : lookupRes l uid = none := by
  induction l with
  | nil => rfl
  | cons hd t ih =>
    obtain ⟨u, r⟩ := hd
    simp only [List.map_cons, List.mem_cons] at h
    push_neg at h
    have h1 : ¬ u = uid := fun he => h.1 he.symm
    simp [lookupRes, h1, ih h.2]

theorem mem_keys_of_lookupRes_some {l : List (ℤ × Resources)} {uid : ℤ} {r : Resources}
    (h : lookupRes l uid = some r) : uid ∈ l.map Prod.fst := by
  induction l with
  | nil => exact Option.noConfusion h
  | cons hd t ih =>
    obtain ⟨u, r2⟩ := hd
    by_cases h2 : u = uid
    · simp [h2]
    · rw [lookupRes, if_neg h2] at h
      simp [ih h]

theorem lookupRes_append_some {a : List (ℤ × Resources)} (b : List (ℤ × Resources))
    {uid : ℤ} {r : Resources} (h : lookupRes a uid = some r) :
    lookupRes (a ++ b) uid = some r := by
  induction a with
  | nil => exact Option.noConfusion h
  | cons hd t ih =>
    obtain ⟨u, r2⟩ := hd
    by_cases h2 : u = uid
    · rw [lookupRes, if_pos h2] at h
      simp [lookupRes, h2, h]
    · rw [lookupRes, if_neg h2] at h
      simp [lookupRes, h2, ih h]

theorem lookupRes_append_none {a : List (ℤ × Resources)} (b : List (ℤ × Resources))
    {uid : ℤ} (h : lookupRes a uid = none) :
    lookupRes (a ++ b) uid = lookupRes b uid := by
  induction a with
  | nil => rfl
  | cons hd t ih =>
    obtain ⟨u, r2⟩ := hd
    by_cases h2 : u = uid
    · rw [lookupRes, if_pos h2] at h
      exact Option.noConfusion h
    · rw [lookupRes, if_neg h2] at h
      simp [lookupRes, h2, ih h]

theorem lookupResLast_eq (l : List (ℤ × Resources)) (uid : ℤ)
    (h : (l.map Prod.fst).Nodup) : lookupResLast l uid = lookupRes l uid := by
  induction l with
  | nil => rfl
  | cons hd t ih =>
    obtain ⟨u, r⟩ := hd
    simp only [List.map_cons, List.nodup_cons] at h
    obtain ⟨hu, ht⟩ := h
    have hrev : lookupResLast ((u, r) :: t) uid = lookupRes (t.reverse ++ [(u, r)]) uid := by
      simp [lookupResLast]
    rw [hrev]
    rcases hc : lookupRes t.reverse uid with _ | r2
    · rw [lookupRes_append_none _ hc]
      have htl : lookupRes t uid = none := by
        have : lookupResLast t uid = lookupRes t uid := ih ht
        rw [← this, lookupResLast]
        simpa using hc
      by_cases h2 : u = uid
      · simp [lookupRes, h2]
      · simp [lookupRes, h2, htl]
    · rw [lookupRes_append_some _ hc]
      have htl : lookupRes t uid = some r2 := by
        have : lookupResLast t uid = lookupRes t uid := ih ht
        rw [← this, lookupResLast]
        simpa using hc
      have hmem : uid ∈ t.map Prod.fst := mem_keys_of_lookupRes_some htl
      have h2 : ¬ u = uid := fun he => hu (he ▸ hmem)
      simp [lookupRes, h2, htl]

theorem getRes_setRes (r : Resources) (k : ResourceKind) (v : ℤ) (k2 : ResourceKind) :
    getRes (setRes r k v) k2 = if k2 = k then v else getRes r k2 := by
  cases k <;> cases k2 <;> simp [getRes, setRes]

theorem find?_offers_append_fresh (l : List TradeOffer) (o : TradeOffer) (oid : ℤ)
    (hid : o.id = oid) (hfresh : ∀ x ∈ l, x.id ≠ oid) :
    (l ++ [o]).find? (fun x => x.id = oid) = some o := by
  induction l with
  | nil => simp [hid]
  | cons a t ih =>
    have ha : ¬ a.id = oid := hfresh a (by simp)
    simp only [List.cons_append, List.find?_cons, decide_eq_false ha]
    exact ih fun x hx => hfresh x (by simp [hx])


/-- Claim C8: creating an offer deducts exactly the offered amount from the
seller into escrow; accepting it with a distinct, sufficiently funded buyer
makes the buyer pay the requested amount and receive the offered amount,
pays the seller the requested amount minus the burned fee, conserves every
resource summed over the two parties up to that fee, and changes no other
player. -/
theorem c8_trade_escrow_conservation
    (m : Market) (seller buyer : ℤ) (oRes rRes : ResourceKind) (oAmt rAmt : ℤ)
    (feeRate : ℚ) (sellerRes0 buyerRes0 : Resources)
    (hnd : (m.players.map Prod.fst).Nodup)
    (hs0 : lookupRes m.players seller = some sellerRes0)
    (hb0 : lookupRes m.players buyer = some buyerRes0)
    (hne : buyer ≠ seller)
    (hoA : 0 < oAmt) (hrA : 0 < rAmt)
    (hsell : oAmt ≤ getRes sellerRes0 oRes)
    (hbuy : rAmt ≤ getRes buyerRes0 rRes)
    (hfresh : ∀ o ∈ m.offers, o.id ≠ m.next_offer_id) :
    (createOffer m seller oRes oAmt rRes rAmt).1 = some m.next_offer_id ∧
    lookupRes (createOffer m seller oRes oAmt rRes rAmt).2.players seller
      = some (setRes sellerRes0 oRes (getRes sellerRes0 oRes - oAmt)) ∧
    (∀ u, u ≠ seller →
      lookupRes (createOffer m seller oRes oAmt rRes rAmt).2.players u
        = lookupRes m.players u) ∧
    (acceptOffer (createOffer m seller oRes oAmt rRes rAmt).2 buyer
        m.next_offer_id feeRate).1 = true ∧
    (∃ sellerRes2 buyerRes2 : Resources,
      lookupRes (acceptOffer (createOffer m seller oRes oAmt rRes rAmt).2 buyer
          m.next_offer_id feeRate).2.players seller = some sellerRes2 ∧
      lookupRes (acceptOffer (createOffer m seller oRes oAmt rRes rAmt).2 buyer
          m.next_offer_id feeRate).2.players buyer = some buyerRes2 ∧
      (∀ k, getRes buyerRes2 k = getRes buyerRes0 k
          - (if k = rRes then rAmt else 0) + (if k = oRes then oAmt else 0)) ∧
      (∀ k, getRes sellerRes2 k = getRes sellerRes0 k
          - (if k = oRes then oAmt else 0)
          + (if k = rRes then rAmt - tradeFee rAmt feeRate else 0)) ∧
      (∀ k, getRes sellerRes2 k + getRes buyerRes2 k
          = getRes sellerRes0 k + getRes buyerRes0 k
            - (if k = rRes then tradeFee rAmt feeRate else 0))) ∧
    (∀ u, u ≠ seller → u ≠ buyer →
      lookupRes (acceptOffer (createOffer m seller oRes oAmt rRes rAmt).2 buyer
          m.next_offer_id feeRate).2.players u = lookupRes m.players u) := by
  have hcreate : createOffer m seller oRes oAmt rRes rAmt =
      (some m.next_offer_id,
       { players := updRes m.players seller (sellerEscrowFn oRes oAmt)
         offers := m.offers ++ [newOffer m seller oRes oAmt rRes rAmt]
         next_offer_id := m.next_offer_id + 1 }) := by
    simp only [createOffer, hs0]
    rw [if_neg (by omega), if_neg (not_lt.mpr hsell)]
  have hs1 : lookupRes (updRes m.players seller (sellerEscrowFn oRes oAmt)) seller
      = some (setRes sellerRes0 oRes (getRes sellerRes0 oRes - oAmt)) := by
    rw [lookupRes_updRes_self, hs0]
    rfl
  have hb1 : lookupRes (updRes m.players seller (sellerEscrowFn oRes oAmt)) buyer
      = some buyerRes0 := by
    rw [lookupRes_updRes_ne _ _ _ _ hne, hb0]
  have hnd1 : ((updRes m.players seller (sellerEscrowFn oRes oAmt)).map Prod.fst).Nodup := by
    rw [updRes_keys]
    exact hnd
  have hfind : (m.offers ++ [newOffer m seller oRes oAmt rRes rAmt]).find?
      (fun o => o.id = m.next_offer_id) = some (newOffer m seller oRes oAmt rRes rAmt) :=
    find?_offers_append_fresh _ _ _ rfl (fun x hx => hfresh x hx)
  have hlasts : lookupResLast (updRes m.players seller (sellerEscrowFn oRes oAmt)) seller
      = some (setRes sellerRes0 oRes (getRes sellerRes0 oRes - oAmt)) := by
    rw [lookupResLast_eq _ _ hnd1, hs1]
  have hlastb : lookupResLast (updRes m.players seller (sellerEscrowFn oRes oAmt)) buyer
      = some buyerRes0 := by
    rw [lookupResLast_eq _ _ hnd1, hb1]
  have haccept : acceptOffer (createOffer m seller oRes oAmt rRes rAmt).2 buyer
      m.next_offer_id feeRate =
      (true,
       { players := updRes (updRes (updRes (updRes m.players seller (sellerEscrowFn oRes oAmt))
             buyer (buyerPayFn rRes rAmt))
             seller (sellerRecvFn rRes (rAmt - tradeFee rAmt feeRate)))
             buyer (buyerRecvFn oRes oAmt)
         offers := updOffer (m.offers ++ [newOffer m seller oRes oAmt rRes rAmt])
           m.next_offer_id fun o => { o with status := "accepted", accepted_by := some buyer }
         next_offer_id := m.next_offer_id + 1 }) := by
    rw [hcreate]
    simp only [acceptOffer]
    rw [hfind]
    simp only [newOffer]
    rw [if_neg (by simp), if_neg hne, hlastb, hlasts]
    dsimp only
    rw [if_neg (not_lt.mpr hbuy)]
  refine ⟨by rw [hcreate], ?_, ?_, by rw [haccept], ?_, ?_⟩
  · rw [hcreate]
    exact hs1
  · intro u hu
    rw [hcreate]
    exact lookupRes_updRes_ne _ _ _ _ hu
  · refine ⟨sellerRecvFn rRes (rAmt - tradeFee rAmt feeRate)
        (setRes sellerRes0 oRes (getRes sellerRes0 oRes - oAmt)),
      buyerRecvFn oRes oAmt (buyerPayFn rRes rAmt buyerRes0), ?_, ?_, ?_, ?_, ?_⟩
    · rw [haccept]
      show lookupRes (updRes _ buyer (buyerRecvFn oRes oAmt)) seller = _
      rw [lookupRes_updRes_ne _ _ _ _ (Ne.symm hne), lookupRes_updRes_self,
        lookupRes_updRes_ne _ _ _ _ (Ne.symm hne), hs1]
      rfl
    · rw [haccept]
      show lookupRes (updRes _ buyer (buyerRecvFn oRes oAmt)) buyer = _
      rw [lookupRes_updRes_self, lookupRes_updRes_ne _ _ _ _ hne,
        lookupRes_updRes_self, hb1]
      rfl
    · intro k
      rcases k <;> rcases oRes <;> rcases rRes <;>
        simp [buyerRecvFn, buyerPayFn, getRes, setRes]
    · intro k
      rcases k <;> rcases oRes <;> rcases rRes <;>
        simp [sellerRecvFn, sellerEscrowFn, getRes, setRes]
    · intro k
      rcases k <;> rcases oRes <;> rcases rRes <;>
        simp [sellerRecvFn, sellerEscrowFn, buyerRecvFn, buyerPayFn, getRes, setRes] <;> ring
  · intro u hu1 hu2
    rw [haccept]
    show lookupRes (updRes _ buyer (buyerRecvFn oRes oAmt)) u = _
    rw [lookupRes_updRes_ne _ _ _ _ hu2, lookupRes_updRes_ne _ _ _ _ hu1,
      lookupRes_updRes_ne _ _ _ _ hu2, lookupRes_updRes_ne _ _ _ _ hu1]


/-- Claim C8 witness: the escrow/conservation theorem applied to a concrete
two-player market. -/
theorem c8_trade_witness :
    (market0.players.map Prod.fst).Nodup ∧
    lookupRes market0.players 1 = some { metal := 100, crystal := 100, deuterium := 100 } ∧
    (acceptOffer (createOffer market0 1 ResourceKind.metal 10 ResourceKind.crystal 15).2 2
        market0.next_offer_id (1/10)).1 = true := by
  have h := c8_trade_escrow_conservation market0 1 2 ResourceKind.metal ResourceKind.crystal
    10 15 (1/10)
    { metal := 100, crystal := 100, deuterium := 100 }
    { metal := 100, crystal := 100, deuterium := 100 }
    (by decide) (by decide) (by decide) (by decide) (by decide) (by decide)
    (by decide) (by decide) (by simp [market0])
  exact ⟨by decide, by decide, h.2.2.2.1⟩

end Ogame
